import Mathlib

/-!
# blksnap: buffer pool (`module/diff_buffer.c`) and control dispatch (`module/ctrl.c`)

A shallow embedding of the difference-buffer pool and of the ioctl dispatcher of
the blksnap kernel module, followed by the properties established about them.

Conventions of the embedding:

* `sector_t` and `size_t` are 64-bit unsigned integers: natural numbers with an
  explicit `% 2 ^ 64` wherever the C arithmetic can wrap.
* `atomic_t` counters are integers; their 32-bit wrap is not modelled.
* A pointer that may be `NULL` is an `Option`; `ERR_PTR(-e)` is `Except.error (-e)`.
* The memory allocator is an explicit state `Mem`: the outcome of every future
  allocation request is read from `Mem.oracle`, in call order.
* The code is embedded as compiled without `BLK_SNAP_DEBUG_DIFF_BUFFER`.
-/

namespace Blksnap

/-! ## Constants -/

/-- Error number `EAGAIN`. -/
def EAGAIN : Int := 11

/-- Error number `ENOMEM`. -/
def ENOMEM : Int := 12

/-- Error number `EINVAL`. -/
def EINVAL : Int := 22

/-- Error number `ENOTTY`. -/
def ENOTTY : Int := 25

/-- Error number `ENOSPC`. -/
def ENOSPC : Int := 28

/-- Error number `ENODATA`. -/
def ENODATA : Int := 61

/-- Shift of the 512-byte sector. -/
def SECTOR_SHIFT : Nat := 9

/-- Modulus of 64-bit unsigned arithmetic (`sector_t`, `size_t`). -/
def U64_MOD : Nat := 2 ^ 64

/-- Build-time and load-time constants that `diff_buffer.c` takes from headers
outside the embedded sources: the page shift of the kernel and the module
parameter `free_diff_buffer_pool_size` (an `int`). -/
structure Params where
  PAGE_SHIFT : Nat
  free_diff_buffer_pool_size : Int
deriving DecidableEq, Repr

/-- Bytes in a page: `1 << PAGE_SHIFT`. -/
def PAGE_SIZE (P : Params) : Nat := 2 ^ P.PAGE_SHIFT

/-- Sectors in a page: `1 << (PAGE_SHIFT - SECTOR_SHIFT)`. -/
def PAGE_SECTORS (P : Params) : Nat := 2 ^ (P.PAGE_SHIFT - SECTOR_SHIFT)

/-- Kernel `round_up(x, y)` for a power of two `y`, on 64-bit unsigned `x`:
`(((x) - 1) | ((y) - 1)) + 1`, every step modulo `2 ^ 64`. -/
def round_up (x y : Nat) : Nat :=
  ((((x % U64_MOD + (U64_MOD - 1)) % U64_MOD) ||| (y - 1)) + 1) % U64_MOD

/-- Allocation flags handed to `kzalloc` and `alloc_page` by `diff_buffer_take`:
`GFP_NOIO`, or `GFP_NOIO | GFP_NOWAIT`. -/
inductive GfpMask where
  | noio_only
  | noio_nowait
deriving DecidableEq, Repr

/-! ## Memory allocator -/

/-- Allocator state. `oracle` lists the outcome of each future allocation
request (`true`: memory is handed out, `false`: `NULL`), and a request made after
the list is used up fails. The two `memory_object_*` fields are the counters of
`memory_checker.h`. The logs record, in call order, the pages given to
`__free_page` and the descriptors given to `kfree`; `diff_buffer_new_calls`
counts the calls of `diff_buffer_new`. -/
structure Mem where
  oracle : List Bool
  next_addr : Nat
  memory_object_page : Int
  memory_object_diff_buffer : Int
  free_page_log : List Nat
  kfree_log : List Nat
  diff_buffer_new_calls : Nat
deriving DecidableEq, Repr

/-- One allocation request (`kzalloc` or `alloc_page`): consumes one oracle
entry and, on success, returns a fresh address. -/
def Mem.alloc (m : Mem) (_gfp_mask : GfpMask) : Mem × Option Nat :=
  match m.oracle with
  | [] => (m, none)
  | false :: rest => ({ m with oracle := rest }, none)
  | true :: rest =>
    ({ m with oracle := rest, next_addr := m.next_addr + 1 }, some m.next_addr)

/-! ## Difference buffers -/

/-- The `struct diff_buffer`: its own address, the byte size, the page count and
the array of page pointers (`none` is a `NULL` slot). -/
structure DiffBuffer where
  addr : Nat
  size : Nat
  page_count : Nat
  pages : List (Option Nat)
deriving DecidableEq, Repr

/-- Body of the `for` loop of `diff_buffer_free` over the given page slots:
every non-`NULL` page is freed and `memory_object_page` decremented. -/
def free_pages_loop : List (Option Nat) → Mem → Mem
  | [], m => m
  | none :: ps, m => free_pages_loop ps m
  | some page :: ps, m =>
    free_pages_loop ps
      { m with free_page_log := m.free_page_log ++ [page],
               memory_object_page := m.memory_object_page - 1 }

/-- The function `diff_buffer_free`: nothing for `NULL`; otherwise frees the pages
in slots `0 .. page_count - 1`, then the descriptor. -/
def diff_buffer_free (m : Mem) (diff_buffer : Option DiffBuffer) : Mem :=
  match diff_buffer with
  | none => m
  | some b =>
    let m1 := free_pages_loop (b.pages.take b.page_count) m
    { m1 with kfree_log := m1.kfree_log ++ [b.addr],
              memory_object_diff_buffer := m1.memory_object_diff_buffer - 1 }

/-- The page loop of `diff_buffer_new`, with `n` iterations left and `inx` the
current index. A failed `alloc_page` jumps to `fail`: the buffer is freed and
`NULL` returned. -/
def alloc_pages_loop (gfp_mask : GfpMask) :
    Nat → Nat → Mem → DiffBuffer → Mem × Option DiffBuffer
  | 0, _, m, b => (m, some b)
  | n + 1, inx, m, b =>
    match m.alloc gfp_mask with
    | (m1, none) => (diff_buffer_free m1 (some b), none)
    | (m1, some page) =>
      alloc_pages_loop gfp_mask n (inx + 1)
        { m1 with memory_object_page := m1.memory_object_page + 1 }
        { b with pages := b.pages.set inx (some page) }

/-- The function `diff_buffer_new`: `NULL` for a page count of zero or when
`kzalloc` fails; otherwise a zeroed descriptor with `page_count + 1` page slots
whose first `page_count` slots are then filled by `alloc_page`. -/
def diff_buffer_new (m : Mem) (page_count buffer_size : Nat) (gfp_mask : GfpMask) :
    Mem × Option DiffBuffer :=
  let m0 := { m with diff_buffer_new_calls := m.diff_buffer_new_calls + 1 }
  if page_count ≤ 0 then (m0, none)
  else
    match m0.alloc gfp_mask with
    | (m1, none) => (m1, none)
    | (m1, some a) =>
      alloc_pages_loop gfp_mask page_count 0
        { m1 with memory_object_diff_buffer := m1.memory_object_diff_buffer + 1 }
        { addr := a, size := buffer_size, page_count := page_count,
          pages := List.replicate (page_count + 1) none }

/-! ## The pool of a difference area -/

/-- The part of `struct diff_area` used by the pool: the chunk size in sectors
(what `diff_area_chunk_sectors` returns), the list `free_diff_buffers` (head
first) and the counter `free_diff_buffers_count`. -/
structure DiffArea where
  chunk_sectors : Nat
  free_diff_buffers : List DiffBuffer
  free_diff_buffers_count : Int
deriving DecidableEq, Repr

/-- Pool and allocator together. -/
structure State where
  area : DiffArea
  mem : Mem
deriving DecidableEq, Repr

/-- The accessor `diff_area_chunk_sectors`, a `sector_t`. -/
def diff_area_chunk_sectors (a : DiffArea) : Nat := a.chunk_sectors % U64_MOD

/-- Page count computed by `diff_buffer_take`:
`round_up(chunk_sectors, PAGE_SECTORS) / PAGE_SECTORS`. -/
def take_page_count (P : Params) (a : DiffArea) : Nat :=
  round_up (diff_area_chunk_sectors a) (PAGE_SECTORS P) / PAGE_SECTORS P

/-- Buffer size computed by `diff_buffer_take`: `chunk_sectors << SECTOR_SHIFT`. -/
def take_buffer_size (a : DiffArea) : Nat :=
  (diff_area_chunk_sectors a <<< SECTOR_SHIFT) % U64_MOD

/-- The allocating part of `diff_buffer_take` (from the comment `Allocate new
buffer` to the end of the function), for the page count and the buffer size
computed there. -/
def diff_buffer_take_new (s : State) (is_nowait : Bool) (page_count buffer_size : Nat) :
    State × Except Int DiffBuffer :=
  match diff_buffer_new s.mem page_count buffer_size
      (if is_nowait then GfpMask.noio_nowait else GfpMask.noio_only) with
  | (m, none) =>
    ({ s with mem := m }, Except.error (if is_nowait then -EAGAIN else -ENOMEM))
  | (m, some diff_buffer) => ({ s with mem := m }, Except.ok diff_buffer)

/-- The function `diff_buffer_take`. -/
def diff_buffer_take (P : Params) (s : State) (is_nowait : Bool) :
    State × Except Int DiffBuffer :=
  match s.area.free_diff_buffers with
  | diff_buffer :: rest =>
    ({ s with area := { s.area with
          free_diff_buffers := rest,
          free_diff_buffers_count := s.area.free_diff_buffers_count - 1 } },
      Except.ok diff_buffer)
  | [] =>
    diff_buffer_take_new s is_nowait (take_page_count P s.area) (take_buffer_size s.area)

/-- The function `diff_buffer_release`. -/
def diff_buffer_release (P : Params) (s : State) (diff_buffer : DiffBuffer) : State :=
  if s.area.free_diff_buffers_count > P.free_diff_buffer_pool_size then
    { s with mem := diff_buffer_free s.mem (some diff_buffer) }
  else
    { s with area := { s.area with
        free_diff_buffers := s.area.free_diff_buffers ++ [diff_buffer],
        free_diff_buffers_count := s.area.free_diff_buffers_count + 1 } }

/-- One pass through the body of the `do ... while` loop of
`diff_buffer_cleanup`: the new state and the buffer that was popped, if any. -/
def diff_buffer_cleanup_pass (s : State) : State × Option DiffBuffer :=
  match s.area.free_diff_buffers with
  | [] => (s, none)
  | diff_buffer :: rest =>
    ({ area := { s.area with
          free_diff_buffers := rest,
          free_diff_buffers_count := s.area.free_diff_buffers_count - 1 },
        mem := diff_buffer_free s.mem (some diff_buffer) },
      some diff_buffer)

/-- The loop of `diff_buffer_cleanup` run for at most `fuel` passes; `none` when
the loop has not ended within `fuel` passes. -/
def diff_buffer_cleanup (fuel : Nat) (s : State) : Option State :=
  match fuel with
  | 0 => none
  | fuel + 1 =>
    match diff_buffer_cleanup_pass s with
    | (s1, none) => some s1
    | (s1, some _) => diff_buffer_cleanup fuel s1

/-- States of the pool reachable from an empty pool (count 0) by calls of
`diff_buffer_take`, `diff_buffer_release` and `diff_buffer_cleanup`. -/
inductive Reachable (P : Params) : State → Prop where
  | init (chunk_sectors : Nat) (m : Mem) :
      Reachable P
        { area := { chunk_sectors := chunk_sectors, free_diff_buffers := [],
                    free_diff_buffers_count := 0 },
          mem := m }
  | take (s : State) (is_nowait : Bool) :
      Reachable P s → Reachable P (diff_buffer_take P s is_nowait).1
  | release (s : State) (diff_buffer : DiffBuffer) :
      Reachable P s → Reachable P (diff_buffer_release P s diff_buffer)
  | cleanup (s s1 : State) (fuel : Nat) :
      Reachable P s → diff_buffer_cleanup fuel s = some s1 → Reachable P s1

/-! ## Control dispatch (`module/ctrl.c`) -/

/-- The ioctl handlers of `ctrl.c`, by the name of the C function. -/
inductive IoctlHandler where
  | ioctl_version
  | ioctl_tracker_remove
  | ioctl_tracker_collect
  | ioctl_tracker_read_cbt_map
  | ioctl_tracker_mark_dirty_blocks
  | ioctl_snapshot_create
  | ioctl_snapshot_destroy
  | ioctl_snapshot_append_storage
  | ioctl_snapshot_take
  | ioctl_snapshot_wait_event
  | ioctl_snapshot_collect_images
deriving DecidableEq, Repr

/-- The array `blk_snap_ioctl_table` of function pointers, in source order
(`none` would be a `NULL` entry). -/
def blk_snap_ioctl_table : List (Option IoctlHandler) :=
  [ some IoctlHandler.ioctl_version,
    some IoctlHandler.ioctl_tracker_remove,
    some IoctlHandler.ioctl_tracker_collect,
    some IoctlHandler.ioctl_tracker_read_cbt_map,
    some IoctlHandler.ioctl_tracker_mark_dirty_blocks,
    some IoctlHandler.ioctl_snapshot_create,
    some IoctlHandler.ioctl_snapshot_destroy,
    some IoctlHandler.ioctl_snapshot_append_storage,
    some IoctlHandler.ioctl_snapshot_take,
    some IoctlHandler.ioctl_snapshot_wait_event,
    some IoctlHandler.ioctl_snapshot_collect_images ]

/-- Kernel `_IOC_NR(cmd)`: `(cmd >> 0) & 0xff`. -/
def IOC_NR (cmd : Nat) : Nat := (cmd >>> 0) &&& 255

/-- What one call of `ctrl_unlocked_ioctl` does: return without invoking a
handler, invoke one handler with an argument and return its result, or read the
table past its last entry (behaviour the C language leaves undefined). The world
of type `σ` is whatever the handlers act on. -/
inductive IoctlOutcome (σ : Type) where
  | returned (ret : Int) (w : σ)
  | called (h : IoctlHandler) (arg : Nat) (ret : Int) (w : σ)
  | out_of_bounds (index : Nat)
deriving DecidableEq, Repr

/-- The function `ctrl_unlocked_ioctl`; `run h arg w` is the effect and the result
of handler `h` on argument `arg` in world `w`. -/
def ctrl_unlocked_ioctl {σ : Type} (run : IoctlHandler → Nat → σ → σ × Int)
    (cmd arg : Nat) (w : σ) : IoctlOutcome σ :=
  let nr := IOC_NR cmd
  if nr > blk_snap_ioctl_table.length then IoctlOutcome.returned (-ENOTTY) w
  else
    match blk_snap_ioctl_table[nr]? with
    | none => IoctlOutcome.out_of_bounds nr
    | some none => IoctlOutcome.returned (-ENOTTY) w
    | some (some h) => IoctlOutcome.called h arg (run h arg w).2 (run h arg w).1

/-- The control-plane requests of the interface. -/
inductive Request where
  | get_version
  | tracker_remove
  | tracker_collect
  | tracker_read_cbt_bitmap
  | tracker_mark_dirty_blocks
  | snapshot_create
  | snapshot_destroy
  | snapshot_append_storage
  | snapshot_take
  | snapshot_wait_event
  | snapshot_collect_images
deriving DecidableEq, Repr

/-- The control-plane request set in the order in which the interface
description lists it. -/
def request_set : List Request :=
  [ Request.get_version, Request.tracker_remove, Request.tracker_collect,
    Request.tracker_read_cbt_bitmap, Request.tracker_mark_dirty_blocks,
    Request.snapshot_create, Request.snapshot_destroy,
    Request.snapshot_append_storage, Request.snapshot_take,
    Request.snapshot_wait_event, Request.snapshot_collect_images ]

/-- The request a handler serves: the engine operation its body calls
(`ioctl_version` calls none and copies the version record out). -/
def IoctlHandler.serves : IoctlHandler → Request
  | IoctlHandler.ioctl_version => Request.get_version
  | IoctlHandler.ioctl_tracker_remove => Request.tracker_remove
  | IoctlHandler.ioctl_tracker_collect => Request.tracker_collect
  | IoctlHandler.ioctl_tracker_read_cbt_map => Request.tracker_read_cbt_bitmap
  | IoctlHandler.ioctl_tracker_mark_dirty_blocks => Request.tracker_mark_dirty_blocks
  | IoctlHandler.ioctl_snapshot_create => Request.snapshot_create
  | IoctlHandler.ioctl_snapshot_destroy => Request.snapshot_destroy
  | IoctlHandler.ioctl_snapshot_append_storage => Request.snapshot_append_storage
  | IoctlHandler.ioctl_snapshot_take => Request.snapshot_take
  | IoctlHandler.ioctl_snapshot_wait_event => Request.snapshot_wait_event
  | IoctlHandler.ioctl_snapshot_collect_images => Request.snapshot_collect_images

/-! ## The handler `ioctl_snapshot_create` -/

/-- The `struct blk_snap_snapshot_create`: the number of device ids, the user
address of their array, and the snapshot id filled in by the module. -/
structure blk_snap_snapshot_create where
  count : Nat
  dev_id_array : Nat
  id : Nat
deriving DecidableEq, Repr

/-- Everything outside `ioctl_snapshot_create` that decides its run: what
`copy_from_user` reads at `arg` (`none` when the read faults), the device ids the
caller stored at `dev_id_array`, whether `kcalloc` and the final `copy_to_user`
succeed, and the engine function `snapshot_create`, which maps the array and the
count it is given to its return value and the id it stores. -/
structure SnapshotCreateEnv where
  request : Option blk_snap_snapshot_create
  user_dev_ids : List Nat
  kcalloc_ok : Bool
  snapshot_create : List Nat → Nat → Int × Nat
  copy_to_user_ok : Bool

/-- What a run of `ioctl_snapshot_create` did: its return value, the arguments of
its call of `snapshot_create` (if it made one), and the record copied back to
the caller (if any). -/
structure SnapshotCreateOutcome where
  ret : Int
  engine_call : Option (List Nat × Nat)
  reply : Option blk_snap_snapshot_create
deriving DecidableEq, Repr

/-- The function `ioctl_snapshot_create`. The array given to `snapshot_create` is
the one `kcalloc` returned: `count` zeroed entries. -/
def ioctl_snapshot_create (e : SnapshotCreateEnv) : SnapshotCreateOutcome :=
  match e.request with
  | none => { ret := -ENODATA, engine_call := none, reply := none }
  | some karg =>
    if e.kcalloc_ok = false then
      { ret := -ENOMEM, engine_call := none, reply := none }
    else
      let dev_id_array : List Nat := List.replicate karg.count 0
      let res := e.snapshot_create dev_id_array karg.count
      if res.1 ≠ 0 then
        { ret := res.1, engine_call := some (dev_id_array, karg.count), reply := none }
      else if e.copy_to_user_ok = false then
        { ret := -ENODATA, engine_call := some (dev_id_array, karg.count),
          reply := none }
      else
        { ret := res.1, engine_call := some (dev_id_array, karg.count),
          reply := some { karg with id := res.2 } }

/-! ## The other handlers of `ctrl.c` -/

/-- What a run of a handler did: its return value, the arguments of its call of
the engine operation (if it made one), and the request record copied back to the
caller (if any). -/
structure HandlerOutcome (α β : Type) where
  ret : Int
  engine_call : Option α
  reply : Option β
deriving DecidableEq, Repr

/-- The `struct blk_snap_tracker_remove`. -/
structure blk_snap_tracker_remove where
  dev_id : Nat
deriving DecidableEq, Repr

/-- Surroundings of `ioctl_tracker_remove`: what `copy_from_user` reads at `arg`
(`none` when the read faults) and the engine function `tracker_remove`. -/
structure TrackerRemoveEnv where
  request : Option blk_snap_tracker_remove
  tracker_remove : Nat → Int

/-- The function `ioctl_tracker_remove`. -/
def ioctl_tracker_remove (e : TrackerRemoveEnv) : HandlerOutcome Nat Unit :=
  match e.request with
  | none => { ret := -ENODATA, engine_call := none, reply := none }
  | some karg =>
    { ret := e.tracker_remove karg.dev_id, engine_call := some karg.dev_id, reply := none }

/-- The `struct blk_snap_cbt_info`, with the fields the command line tool prints. -/
structure blk_snap_cbt_info where
  dev_id : Nat
  blk_size : Nat
  device_capacity : Nat
  blk_count : Nat
  generationId : Nat
  snap_number : Nat
deriving DecidableEq, Repr

/-- A zeroed `struct blk_snap_cbt_info`, as `kcalloc` returns it. -/
def blk_snap_cbt_info.zero : blk_snap_cbt_info :=
  { dev_id := 0, blk_size := 0, device_capacity := 0, blk_count := 0,
    generationId := 0, snap_number := 0 }

/-- The `struct blk_snap_tracker_collect`: the count and the user address of the
array of records (0 is `NULL`). -/
structure blk_snap_tracker_collect where
  count : Nat
  cbt_info_array : Nat
deriving DecidableEq, Repr

/-- Surroundings of `ioctl_tracker_collect`. The engine function `tracker_collect`
maps the capacity and the kernel buffer it is given (`none` is `NULL`) to its
return value, the count it stores through its third argument and the content of
the buffer afterwards. `copy_array_ok` and `copy_to_user_ok` tell whether the
copy of the records and the copy of the request back to the caller succeed. -/
structure TrackerCollectEnv where
  request : Option blk_snap_tracker_collect
  kcalloc_ok : Bool
  tracker_collect :
    Nat → Option (List blk_snap_cbt_info) → Int × Nat × List blk_snap_cbt_info
  copy_array_ok : Bool
  copy_to_user_ok : Bool

/-- What a run of `ioctl_tracker_collect` did: return value, arguments of the call
of `tracker_collect`, the records written to the caller's array and the request
record written back. -/
structure TrackerCollectOutcome where
  ret : Int
  engine_call : Option (Nat × Option (List blk_snap_cbt_info))
  array_written : Option (List blk_snap_cbt_info)
  reply : Option blk_snap_tracker_collect
deriving DecidableEq, Repr

/-- The function `ioctl_tracker_collect`. -/
def ioctl_tracker_collect (e : TrackerCollectEnv) : TrackerCollectOutcome :=
  match e.request with
  | none =>
    { ret := -ENODATA, engine_call := none, array_written := none, reply := none }
  | some karg =>
    if karg.cbt_info_array = 0 then
      let r := e.tracker_collect 0 none
      if r.1 ≠ 0 then
        { ret := r.1, engine_call := some (0, none), array_written := none,
          reply := none }
      else if e.copy_to_user_ok = false then
        { ret := -ENODATA, engine_call := some (0, none), array_written := none,
          reply := none }
      else
        { ret := 0, engine_call := some (0, none), array_written := none,
          reply := some { karg with count := r.2.1 } }
    else if e.kcalloc_ok = false then
      { ret := -ENOMEM, engine_call := none, array_written := none, reply := none }
    else
      let cbt_info := List.replicate karg.count blk_snap_cbt_info.zero
      let r := e.tracker_collect karg.count (some cbt_info)
      if r.1 ≠ 0 then
        { ret := r.1, engine_call := some (karg.count, some cbt_info),
          array_written := none, reply := none }
      else if e.copy_array_ok = false then
        { ret := -ENODATA, engine_call := some (karg.count, some cbt_info),
          array_written := none, reply := none }
      else if e.copy_to_user_ok = false then
        { ret := -ENODATA, engine_call := some (karg.count, some cbt_info),
          array_written := some (r.2.2.take r.2.1), reply := none }
      else
        { ret := r.1, engine_call := some (karg.count, some cbt_info),
          array_written := some (r.2.2.take r.2.1),
          reply := some { karg with count := r.2.1 } }

/-- The `struct blk_snap_tracker_read_cbt_bitmap`. -/
structure blk_snap_tracker_read_cbt_bitmap where
  dev_id : Nat
  offset : Nat
  length : Nat
  buff : Nat
deriving DecidableEq, Repr

/-- Surroundings of `ioctl_tracker_read_cbt_map`. -/
structure TrackerReadCbtMapEnv where
  request : Option blk_snap_tracker_read_cbt_bitmap
  tracker_read_cbt_bitmap : Nat → Nat → Nat → Nat → Int

/-- The function `ioctl_tracker_read_cbt_map`. -/
def ioctl_tracker_read_cbt_map (e : TrackerReadCbtMapEnv) :
    HandlerOutcome (Nat × Nat × Nat × Nat) Unit :=
  match e.request with
  | none => { ret := -ENODATA, engine_call := none, reply := none }
  | some karg =>
    { ret := e.tracker_read_cbt_bitmap karg.dev_id karg.offset karg.length karg.buff,
      engine_call := some (karg.dev_id, karg.offset, karg.length, karg.buff),
      reply := none }

/-- The `struct blk_snap_block_range`. -/
structure blk_snap_block_range where
  sector_offset : Nat
  sector_count : Nat
deriving DecidableEq, Repr

/-- The `struct blk_snap_tracker_mark_dirty_blocks`. -/
structure blk_snap_tracker_mark_dirty_blocks where
  dev_id : Nat
  count : Nat
  dirty_blocks_array : Nat
deriving DecidableEq, Repr

/-- Surroundings of `ioctl_tracker_mark_dirty_blocks`; `user_ranges` is what the
second `copy_from_user` reads at `dirty_blocks_array` (`none` when it faults). -/
structure TrackerMarkDirtyBlocksEnv where
  request : Option blk_snap_tracker_mark_dirty_blocks
  kcalloc_ok : Bool
  user_ranges : Option (List blk_snap_block_range)
  tracker_mark_dirty_blocks : Nat → List blk_snap_block_range → Nat → Int

/-- The function `ioctl_tracker_mark_dirty_blocks`. -/
def ioctl_tracker_mark_dirty_blocks (e : TrackerMarkDirtyBlocksEnv) :
    HandlerOutcome (Nat × List blk_snap_block_range × Nat) Unit :=
  match e.request with
  | none => { ret := -ENODATA, engine_call := none, reply := none }
  | some karg =>
    if e.kcalloc_ok = false then
      { ret := -ENOMEM, engine_call := none, reply := none }
    else
      match e.user_ranges with
      | none => { ret := -ENODATA, engine_call := none, reply := none }
      | some dirty_blocks_array =>
        { ret := e.tracker_mark_dirty_blocks karg.dev_id dirty_blocks_array karg.count,
          engine_call := some (karg.dev_id, dirty_blocks_array, karg.count),
          reply := none }

/-- The `struct blk_snap_snapshot_destroy`. -/
structure blk_snap_snapshot_destroy where
  id : Nat
deriving DecidableEq, Repr

/-- Surroundings of `ioctl_snapshot_destroy`. -/
structure SnapshotDestroyEnv where
  request : Option blk_snap_snapshot_destroy
  snapshot_destroy : Nat → Int

/-- The function `ioctl_snapshot_destroy`. -/
def ioctl_snapshot_destroy (e : SnapshotDestroyEnv) : HandlerOutcome Nat Unit :=
  match e.request with
  | none => { ret := -ENODATA, engine_call := none, reply := none }
  | some karg =>
    { ret := e.snapshot_destroy karg.id, engine_call := some karg.id, reply := none }

/-- The `struct blk_snap_snapshot_append_storage` as the handler reads it. -/
structure blk_snap_snapshot_append_storage where
  id : Nat
  dev_id : Nat
  range_count : Nat
  ranges : Nat
deriving DecidableEq, Repr

/-- Surroundings of `ioctl_snapshot_append_storage`; `user_ranges` is what
`big_buffer_copy_from_user` reads at `ranges` (`none` when it copies fewer bytes
than asked). -/
structure SnapshotAppendStorageEnv where
  request : Option blk_snap_snapshot_append_storage
  big_buffer_alloc_ok : Bool
  user_ranges : Option (List blk_snap_block_range)
  snapshot_append_storage : Nat → Nat → List blk_snap_block_range → Nat → Int

/-- The function `ioctl_snapshot_append_storage`. -/
def ioctl_snapshot_append_storage (e : SnapshotAppendStorageEnv) :
    HandlerOutcome (Nat × Nat × List blk_snap_block_range × Nat) Unit :=
  match e.request with
  | none => { ret := -EINVAL, engine_call := none, reply := none }
  | some karg =>
    if e.big_buffer_alloc_ok = false then
      { ret := -ENOMEM, engine_call := none, reply := none }
    else
      match e.user_ranges with
      | none => { ret := -ENODATA, engine_call := none, reply := none }
      | some ranges =>
        { ret := e.snapshot_append_storage karg.id karg.dev_id ranges karg.range_count,
          engine_call := some (karg.id, karg.dev_id, ranges, karg.range_count),
          reply := none }

/-- The `struct blk_snap_snapshot_take`. -/
structure blk_snap_snapshot_take where
  id : Nat
deriving DecidableEq, Repr

/-- Surroundings of `ioctl_snapshot_take`. -/
structure SnapshotTakeEnv where
  request : Option blk_snap_snapshot_take
  snapshot_take : Nat → Int

/-- The function `ioctl_snapshot_take`. -/
def ioctl_snapshot_take (e : SnapshotTakeEnv) : HandlerOutcome Nat Unit :=
  match e.request with
  | none => { ret := -ENODATA, engine_call := none, reply := none }
  | some karg =>
    { ret := e.snapshot_take karg.id, engine_call := some karg.id, reply := none }

/-- The `struct blk_snap_snapshot_collect_images`. -/
structure blk_snap_snapshot_collect_images where
  id : Nat
  count : Nat
  image_info_array : Nat
deriving DecidableEq, Repr

/-- Surroundings of `ioctl_snapshot_collect_images`; the engine function maps the
id, the user address of the array and the count it is given to its return value
and the count it stores. -/
structure SnapshotCollectImagesEnv where
  request : Option blk_snap_snapshot_collect_images
  snapshot_collect_images : Nat → Nat → Nat → Int × Nat
  copy_to_user_ok : Bool

/-- The function `ioctl_snapshot_collect_images`. -/
def ioctl_snapshot_collect_images (e : SnapshotCollectImagesEnv) :
    HandlerOutcome (Nat × Nat × Nat) blk_snap_snapshot_collect_images :=
  match e.request with
  | none => { ret := -ENODATA, engine_call := none, reply := none }
  | some karg =>
    let r := e.snapshot_collect_images karg.id karg.image_info_array karg.count
    if e.copy_to_user_ok = false then
      { ret := -ENODATA,
        engine_call := some (karg.id, karg.image_info_array, karg.count), reply := none }
    else
      { ret := r.1, engine_call := some (karg.id, karg.image_info_array, karg.count),
        reply := some { karg with count := r.2 } }

/-! ## The handler `ioctl_snapshot_wait_event` -/

/-- The `struct event` of the event queue: time, code and payload; `data_size` is
the number of payload bytes. -/
structure event where
  time : Int
  code : Int
  data : List Nat
deriving DecidableEq, Repr

/-- The field `data_size` of `struct event`. -/
def event.data_size (ev : event) : Nat := ev.data.length

/-- The `struct blk_snap_snapshot_event`, the reply of the wait-event request:
the header fields and the bytes of the field `data`. -/
structure blk_snap_snapshot_event where
  id : Nat
  timeout_ms : Nat
  time_label : Int
  code : Int
  data : List Nat
deriving DecidableEq, Repr

/-- Sizes that `ioctl_snapshot_wait_event` takes from outside the embedded
sources: `sizeof(karg)`, where `karg` is a pointer to the reply, and the offset of
the field `data` in `struct blk_snap_snapshot_event`, which is the size of the
header (id, timeout_ms, time_label, code) that precedes it. -/
structure ReplyLayout where
  sizeof_karg : Nat
  data_offset : Nat
deriving DecidableEq, Repr

/-- Surroundings of `ioctl_snapshot_wait_event`: whether `kzalloc` succeeds, the
page `copy_from_user` reads at `arg` (`none` when the read faults), the engine
function `snapshot_wait_event` (an event, or `ERR_PTR` of an error code) and
whether the final `copy_to_user` succeeds. -/
structure WaitEventEnv where
  kzalloc_ok : Bool
  request : Option blk_snap_snapshot_event
  snapshot_wait_event : Nat → Nat → Except Int event
  copy_to_user_ok : Bool

/-- What a run of `ioctl_snapshot_wait_event` did: return value, arguments of the
call of `snapshot_wait_event`, the length given to `memcpy` (0 when `memcpy` is
not reached), the number of bytes `memcpy` wrote past the end of the `PAGE_SIZE`
buffer, and the reply copied back to the caller. -/
structure WaitEventOutcome where
  ret : Int
  engine_call : Option (Nat × Nat)
  copied : Nat
  overrun : Nat
  reply : Option blk_snap_snapshot_event
deriving DecidableEq, Repr

/-- The function `ioctl_snapshot_wait_event`. The buffer `karg` has `PAGE_SIZE`
bytes, of which the field `data` holds `PAGE_SIZE - data_offset`; `memcpy` is asked
for `min(data_size, PAGE_SIZE - sizeof(karg))` bytes starting at `data`. -/
def ioctl_snapshot_wait_event (P : Params) (L : ReplyLayout) (e : WaitEventEnv) :
    WaitEventOutcome :=
  if e.kzalloc_ok = false then
    { ret := -ENOMEM, engine_call := none, copied := 0, overrun := 0, reply := none }
  else
    match e.request with
    | none =>
      { ret := -EINVAL, engine_call := none, copied := 0, overrun := 0, reply := none }
    | some karg =>
      match e.snapshot_wait_event karg.id karg.timeout_ms with
      | Except.error err =>
        { ret := err, engine_call := some (karg.id, karg.timeout_ms), copied := 0,
          overrun := 0, reply := none }
      | Except.ok ev =>
        let ret : Int := if ev.data_size > PAGE_SIZE P - L.sizeof_karg then -ENOSPC else 0
        let n := min ev.data_size (PAGE_SIZE P - L.sizeof_karg)
        let room := PAGE_SIZE P - L.data_offset
        let karg1 : blk_snap_snapshot_event :=
          { karg with time_label := ev.time, code := ev.code,
                      data := ev.data.take (min n room) ++ karg.data.drop (min n room) }
        if e.copy_to_user_ok = false then
          { ret := -EINVAL, engine_call := some (karg.id, karg.timeout_ms), copied := n,
            overrun := n - room, reply := none }
        else
          { ret := ret, engine_call := some (karg.id, karg.timeout_ms), copied := n,
            overrun := n - room, reply := some karg1 }

/-! ## The command line tool (`utils/blksnap/main.cpp`)

A `std::string` is a list of characters. Exceptions are values of `CliError`, and
a function that can throw returns an `Except CliError`. -/

/-- The exceptions thrown in `main.cpp`, with the text of `what()` where the
source gives one. -/
inductive CliError where
  | invalid_argument (what : String)
  | out_of_range (what : String)
  | runtime_error (what : String)
  | system_error (errno : Int) (what : String)
  | bad_any_cast
deriving DecidableEq, Repr

/-- C `isspace` in the default locale: space and the characters 9 to 13. -/
def isspace (c : Char) : Bool := c.toNat = 32 || (9 ≤ c.toNat && c.toNat ≤ 13)

/-- C `isdigit`: the characters `0` to `9`. -/
def isdigit (c : Char) : Bool := 48 ≤ c.toNat && c.toNat ≤ 57

/-- Value of a decimal digit character. -/
def digit_value (c : Char) : Nat := c.toNat - 48

/-- Value of a sequence of decimal digits, most significant first. -/
def parse_digits (ds : List Char) : Nat :=
  ds.foldl (fun acc c => acc * 10 + digit_value c) 0

/-- The optional sign of a number is dropped: one leading `-` or `+`. -/
def strip_sign : List Char → List Char
  | '-' :: r => r
  | '+' :: r => r
  | s => s

/-- The scan shared by `strtoull` and `strtol` in base 10: leading white space is
skipped, one sign is accepted, and the longest run of digits is read. The result
is the sign (`true` for `-`) and the magnitude, or `none` when there is no digit. -/
def strto_scan (s : List Char) : Option (Bool × Nat) :=
  let s1 := s.dropWhile isspace
  let neg := s1.head? = some '-'
  let ds := (strip_sign s1).takeWhile isdigit
  if ds = [] then none else some (neg, parse_digits ds)

/-- The function `std::stoull` for base 10 and a 64-bit `unsigned long long`:
`invalid_argument` when no digit is found, `out_of_range` when the magnitude does
not fit, and a negated value for a leading `-`. -/
def stoull (s : List Char) : Except CliError Nat :=
  match strto_scan s with
  | none => Except.error (CliError.invalid_argument "stoull")
  | some (neg, v) =>
    if v ≥ 2 ^ 64 then Except.error (CliError.out_of_range "stoull")
    else Except.ok (if neg then (2 ^ 64 - v) % 2 ^ 64 else v)

/-- The function `std::string::find` for one character: the index of its first
occurrence, or `none` for `npos`. -/
def string_find : List Char → Char → Option Nat
  | [], _ => none
  | x :: xs, c => if x = c then some 0 else (string_find xs c).map (· + 1)

/-- The function `parseRange`. -/
def parseRange (str : List Char) : Except CliError blk_snap_block_range :=
  match string_find str ':' with
  | none => Except.error (CliError.invalid_argument "Invalid format of range string.")
  | some pos =>
    match stoull (str.take pos) with
    | Except.error err => Except.error err
    | Except.ok sector_offset =>
      match stoull (str.drop (pos + 1)) with
      | Except.error err => Except.error err
      | Except.ok sector_count =>
        Except.ok { sector_offset := sector_offset, sector_count := sector_count }

/-- The function `std::stoi` for base 10 and a 32-bit `int`. -/
def stoi (s : List Char) : Except CliError Int :=
  match strto_scan s with
  | none => Except.error (CliError.invalid_argument "stoi")
  | some (neg, v) =>
    let x : Int := if neg then -(v : Int) else (v : Int)
    if x < -(2 ^ 31) ∨ x > 2 ^ 31 - 1 then Except.error (CliError.out_of_range "stoi")
    else Except.ok x

/-- Error number `ENOENT`. -/
def ENOENT : Int := 2

/-- Error number `EINTR`. -/
def EINTR : Int := 4

/-- A `po::variables_map` after the command line is parsed: for each option that
was given, its values (none for a flag). -/
abbrev VariablesMap := List (String × List String)

/-- The call `vm.count(name)`. -/
def VariablesMap.count (vm : VariablesMap) (name : String) : Nat :=
  match vm.lookup name with
  | some _ => 1
  | none => 0

/-- The call `vm[name].as<std::string>()`. -/
def VariablesMap.as_string (vm : VariablesMap) (name : String) : Except CliError String :=
  match vm.lookup name with
  | some (v :: _) => Except.ok v
  | _ => Except.error CliError.bad_any_cast

/-- The call `vm[name].as<std::vector<std::string> >()`. -/
def VariablesMap.as_strings (vm : VariablesMap) (name : String) :
    Except CliError (List String) :=
  match vm.lookup name with
  | some vs => Except.ok vs
  | none => Except.error CliError.bad_any_cast

/-- The `struct blk_snap_image_info`. -/
structure blk_snap_image_info where
  orig_dev_id : Nat
  image_dev_id : Nat
deriving DecidableEq, Repr

/-- An ioctl request as the tool submits it: the content of `param` together with
the array it points to. -/
inductive CliRequest where
  | snapshot_append_storage (id dev_id : Nat) (ranges : List blk_snap_block_range)
  | snapshot_wait_event (id timeout_ms : Nat)
  | snapshot_collect_images (param : blk_snap_snapshot_collect_images)
deriving DecidableEq, Repr

/-- What the kernel answers to a wait-event request: the value `ioctl` returns,
`errno`, and the reply fields of `param`. -/
structure WaitEventAnswer where
  ret : Int
  errno : Int
  time_label : Int
  code : Nat
  data : List Nat
deriving DecidableEq, Repr

/-- What the kernel answers to a collect-images request: the value `ioctl`
returns, `errno`, the content of `param` afterwards and the records stored in the
caller's array. -/
structure CollectImagesAnswer where
  ret : Int
  errno : Int
  param : blk_snap_snapshot_collect_images
  images : List blk_snap_image_info
deriving DecidableEq, Repr

/-- The numbers of the event codes in `blk_snap.h`. -/
structure EventCodes where
  BLK_SNAP_EVENT_LOW_FREE_SPACE : Nat
  BLK_SNAP_EVENT_CORRUPTED : Nat
  BLK_SNAP_EVENT_TERMINATE : Nat
deriving DecidableEq, Repr

/-- Everything outside the tool that decides a run of a command: the system calls
`stat` (an `errno`, or `st_rdev`) and `ioctl`, the library function `uuid_parse`
(`none` when it returns -1), the bytes that lie in `param.id` when `uuid_parse`
leaves it unset, the address of the result vector, the macros `major` and
`minor`, and the event codes. -/
structure CliEnv where
  stat : String → Except Int Nat
  uuid_parse : List Char → Option Nat
  stack_id : Nat
  vector_data : Nat
  major : Nat → Nat
  minor : Nat → Nat
  codes : EventCodes
  ioctl_append_storage : Nat → Nat → List blk_snap_block_range → Int × Int
  ioctl_wait_event : Nat → Nat → WaitEventAnswer
  ioctl_collect_images : blk_snap_snapshot_collect_images → CollectImagesAnswer

/-- What a run of a command did: the ioctl requests it submitted, in order, the
lines it wrote to `std::cout`, the exception that ended it, if any, and whether it
read an element beyond the end of a `std::vector` (where the run stops being
defined). -/
structure CliRun where
  requests : List CliRequest
  output : List String
  thrown : Option CliError
  read_past_vector : Bool := false
deriving DecidableEq, Repr

/-- The function `deviceByName`. -/
def deviceByName (env : CliEnv) (name : String) : Except CliError Nat :=
  match env.stat name with
  | Except.error errno => Except.error (CliError.system_error errno name)
  | Except.ok st_rdev => Except.ok st_rdev

/-- The three lines `strncpy(idStr, ...); uuid_parse(idStr, param.id);` shared by
the commands that take `--id`: at most 64 characters of the option are handed to
`uuid_parse`, and its return value is not looked at. -/
def parse_id_option (env : CliEnv) (value : String) : Nat :=
  match env.uuid_parse (value.toList.take 64) with
  | some id => id
  | none => env.stack_id

/-- The loop `for (range : ...) ranges.push_back(parseRange(range))`. -/
def parse_ranges : List String → Except CliError (List blk_snap_block_range)
  | [] => Except.ok []
  | r :: rest =>
    match parseRange r.toList with
    | Except.error err => Except.error err
    | Except.ok range =>
      match parse_ranges rest with
      | Except.error err => Except.error err
      | Except.ok ranges => Except.ok (range :: ranges)

/-- The method `SnapshotAppendStorageArgsProc::Execute`. -/
def SnapshotAppendStorageArgsProc.Execute (env : CliEnv) (vm : VariablesMap) : CliRun :=
  if vm.count "id" = 0 then
    { requests := [], output := [],
      thrown := some (CliError.invalid_argument "Argument 'id' is missed.") }
  else
    match vm.as_string "id" with
    | Except.error err => { requests := [], output := [], thrown := some err }
    | Except.ok id_value =>
      let id := parse_id_option env id_value
      if vm.count "file" ≠ 0 then
        { requests := [], output := [],
          thrown := some (CliError.runtime_error "fiemapStorage") }
      else if vm.count "device" = 0 then
        { requests := [], output := [],
          thrown := some (CliError.invalid_argument "Argument 'device' is missed.") }
      else
        match (vm.as_string "device").bind (deviceByName env) with
        | Except.error err => { requests := [], output := [], thrown := some err }
        | Except.ok dev_id =>
          if vm.count "ranges" = 0 then
            { requests := [], output := [],
              thrown := some (CliError.invalid_argument "Argument 'ranges' is missed.") }
          else
            match (vm.as_strings "range").bind parse_ranges with
            | Except.error err => { requests := [], output := [], thrown := some err }
            | Except.ok ranges =>
              let r := env.ioctl_append_storage id dev_id ranges
              { requests := [CliRequest.snapshot_append_storage id dev_id ranges],
                output := [],
                thrown :=
                  if r.1 ≠ 0 then
                    some (CliError.system_error r.2
                      "[TBD]Failed to append storage for snapshot.")
                  else none }

/-- The output operator of `std::ostream` for an integer: its decimal form, with
a leading `-` when it is negative. -/
def ostream_integer (x : Int) : String := toString x

/-- The read `*(__u64*)(param.data)` on a little-endian machine: the first eight
bytes of `data`, least significant first. -/
def load_u64 (data : List Nat) : Nat :=
  ((data ++ List.replicate 8 0).take 8).foldr (fun byte acc => byte % 256 + 256 * acc) 0

/-- The `switch (param.code)` of `SnapshotWaitEventArgsProc::Execute`: the lines
it prints. -/
def event_lines (codes : EventCodes) (code : Nat) (data : List Nat) : List String :=
  if code = codes.BLK_SNAP_EVENT_LOW_FREE_SPACE then
    ["event=low_free_space",
     "requested_nr_sect=" ++ ostream_integer (load_u64 data)]
  else if code = codes.BLK_SNAP_EVENT_CORRUPTED then ["event=corrupted"]
  else if code = codes.BLK_SNAP_EVENT_TERMINATE then ["event=terminate"]
  else ["event=" ++ ostream_integer code]

/-- The method `SnapshotWaitEventArgsProc::Execute`. The `int` that `std::stoi`
returns is stored in the 32-bit unsigned field `timeout_ms`. -/
def SnapshotWaitEventArgsProc.Execute (env : CliEnv) (vm : VariablesMap) : CliRun :=
  if vm.count "id" = 0 then
    { requests := [], output := [],
      thrown := some (CliError.invalid_argument "Argument 'id' is missed.") }
  else
    match vm.as_string "id" with
    | Except.error err => { requests := [], output := [], thrown := some err }
    | Except.ok id_value =>
      let id := parse_id_option env id_value
      if vm.count "timeout" = 0 then
        { requests := [], output := [],
          thrown := some (CliError.invalid_argument "Argument 'timeout' is missed.") }
      else
        match (vm.as_string "timeout").bind (fun value => stoi value.toList) with
        | Except.error err => { requests := [], output := [], thrown := some err }
        | Except.ok timeout =>
          let timeout_ms := (timeout % 2 ^ 32).toNat
          let answer := env.ioctl_wait_event id timeout_ms
          let requests := [CliRequest.snapshot_wait_event id timeout_ms]
          if answer.ret ≠ 0 then
            if answer.errno = ENOENT then
              if vm.count "json" ≠ 0 then
                { requests := requests, output := [],
                  thrown := some (CliError.invalid_argument
                    "Argument 'json' is not supported yet.") }
              else { requests := requests, output := ["result=timeout"], thrown := none }
            else if answer.errno = EINTR then
              if vm.count "json" ≠ 0 then
                { requests := requests, output := [],
                  thrown := some (CliError.invalid_argument
                    "Argument 'json' is not supported yet.") }
              else
                { requests := requests, output := ["result=interrupted"], thrown := none }
            else
              { requests := requests, output := [],
                thrown := some (CliError.system_error answer.errno
                  "[TBD]Failed to get event from snapshot.") }
          else if vm.count "json" ≠ 0 then
            { requests := requests, output := [],
              thrown := some (CliError.invalid_argument
                "Argument 'json' is not supported yet.") }
          else
            { requests := requests,
              output :=
                ["result=ok", "time=" ++ ostream_integer answer.time_label] ++
                  event_lines env.codes answer.code answer.data,
              thrown := none }

/-- A zeroed `struct blk_snap_image_info`, as `std::vector::resize` makes it. -/
def blk_snap_image_info.zero : blk_snap_image_info :=
  { orig_dev_id := 0, image_dev_id := 0 }

/-- The three lines printed for one record of the vector. -/
def image_info_lines (env : CliEnv) (it : blk_snap_image_info) : List String :=
  ["orig_dev_id=" ++ ostream_integer (env.major it.orig_dev_id) ++ ":" ++
      ostream_integer (env.minor it.orig_dev_id),
   "image_dev_id=" ++ ostream_integer (env.major it.image_dev_id) ++ ":" ++
      ostream_integer (env.minor it.image_dev_id),
   ","]

/-- The loop `for (int inx=0; inx < param.count; inx++)` of
`SnapshotCollectArgsProc::Execute` with `n` iterations left: the lines printed, and
`true` when `imageInfoVector[inx]` lies beyond the end of the vector. -/
def print_images_loop (env : CliEnv) (imageInfoVector : List blk_snap_image_info) :
    Nat → Nat → List String × Bool
  | 0, _ => ([], false)
  | n + 1, inx =>
    match imageInfoVector.get? inx with
    | none => ([], true)
    | some it =>
      let rest := print_images_loop env imageInfoVector n (inx + 1)
      (image_info_lines env it ++ rest.1, rest.2)

/-- The method `SnapshotCollectArgsProc::Execute`. The vector holds
`param.count` zeroed records after `resize`, over which the second call stores the
records of its answer. -/
def SnapshotCollectArgsProc.Execute (env : CliEnv) (vm : VariablesMap) : CliRun :=
  let param : blk_snap_snapshot_collect_images :=
    { id := 0, count := 0, image_info_array := 0 }
  let first := env.ioctl_collect_images param
  if first.ret ≠ 0 then
    if first.errno = ENODATA then
      if vm.count "json" ≠ 0 then
        { requests := [CliRequest.snapshot_collect_images param], output := [],
          thrown := some (CliError.invalid_argument
            "Argument 'json' is not supported yet.") }
      else
        { requests := [CliRequest.snapshot_collect_images param],
          output := ["count=0"], thrown := none }
    else
      { requests := [CliRequest.snapshot_collect_images param], output := [],
        thrown := some (CliError.system_error first.errno
          "[TBD]Failed to get device collection for snapshot.") }
  else
    let size := first.param.count
    let param1 := { first.param with image_info_array := env.vector_data }
    let second := env.ioctl_collect_images param1
    let requests :=
      [CliRequest.snapshot_collect_images param, CliRequest.snapshot_collect_images param1]
    if second.ret ≠ 0 then
      { requests := requests, output := [],
        thrown := some (CliError.system_error second.errno
          "[TBD]Failed to get device collection for snapshot.") }
    else if vm.count "json" ≠ 0 then
      { requests := requests, output := [],
        thrown := some (CliError.invalid_argument
          "Argument 'json' is not supported yet.") }
    else
      let imageInfoVector :=
        (second.images ++ List.replicate size blk_snap_image_info.zero).take size
      let printed := print_images_loop env imageInfoVector second.param.count 0
      { requests := requests,
        output := ("count=" ++ ostream_integer second.param.count) :: printed.1,
        thrown := none,
        read_past_vector := printed.2 }

/-! ## Device ids (`tests/cpp/blksnap/DeviceId.h`) -/

/-- The `struct SDeviceId`: the `unsigned int` fields `mj` and `mn`. Comparing two
`unsigned int` values is comparing the numbers they hold. -/
structure SDeviceId where
  mj : Nat
  mn : Nat
deriving DecidableEq, Repr

/-- The operator `SDeviceId::operator ==`. -/
def SDeviceId.operator_eq (self devId : SDeviceId) : Bool :=
  (self.mj == devId.mj) && (self.mn == devId.mn)

/-- The operator `SDeviceId::operator !=`. -/
def SDeviceId.operator_ne (self devId : SDeviceId) : Bool :=
  !(self.operator_eq devId)

/-- The operator `SDeviceId::operator <`. -/
def SDeviceId.operator_lt (self devId : SDeviceId) : Bool :=
  if self.mj < devId.mj then true
  else
    if self.mj = devId.mj then
      if self.mn < devId.mn then true
      else false
    else false

/-! ## Notions used in the statements -/

/-- Pages a buffer holds: the non-`NULL` entries among its first `page_count`
page slots, in slot order. -/
def DiffBuffer.live_pages (b : DiffBuffer) : List Nat :=
  (b.pages.take b.page_count).reduceOption

/-- State in which the loop of `diff_buffer_cleanup` ends: every pooled buffer has
been popped (the count lowered once per buffer) and freed, head first. -/
def drained (s : State) : State :=
  { area := { s.area with
      free_diff_buffers := [],
      free_diff_buffers_count :=
        s.area.free_diff_buffers_count - s.area.free_diff_buffers.length },
    mem := s.area.free_diff_buffers.foldl (fun m b => diff_buffer_free m (some b)) s.mem }

/-- The buffers callers hold after a call of `diff_buffer_take`: the buffer it
returned, if it returned one, joins those held before. -/
def held_after_take (held : List DiffBuffer) : Except Int DiffBuffer → List DiffBuffer
  | Except.ok diff_buffer => diff_buffer :: held
  | Except.error _ => held

/-- Runs from an empty pool (count 0) in which callers release only buffers they
obtained from `diff_buffer_take` and have not released since: the state reached,
together with the buffers the callers hold at that point. -/
inductive ReachableHeld (P : Params) : State → List DiffBuffer → Prop where
  | init (chunk_sectors : Nat) (m : Mem) :
      ReachableHeld P
        { area := { chunk_sectors := chunk_sectors, free_diff_buffers := [],
                    free_diff_buffers_count := 0 },
          mem := m } []
  | take (s : State) (held : List DiffBuffer) (is_nowait : Bool) :
      ReachableHeld P s held →
      ReachableHeld P (diff_buffer_take P s is_nowait).1
        (held_after_take held (diff_buffer_take P s is_nowait).2)
  | release (s : State) (held : List DiffBuffer) (diff_buffer : DiffBuffer) :
      ReachableHeld P s held → diff_buffer ∈ held →
      ReachableHeld P (diff_buffer_release P s diff_buffer) (held.erase diff_buffer)
  | cleanup (s s1 : State) (held : List DiffBuffer) (fuel : Nat) :
      ReachableHeld P s held → diff_buffer_cleanup fuel s = some s1 →
      ReachableHeld P s1 held

/-! ## Sample data used by the concrete instances below -/

/-- Parameters of the samples: 4 KiB pages and a pool size of one. -/
def sample_params : Params := { PAGE_SHIFT := 12, free_diff_buffer_pool_size := 1 }

/-- Allocator state of the samples, with the given oracle. -/
def sample_mem (oracle : List Bool) : Mem :=
  { oracle := oracle, next_addr := 100, memory_object_page := 0,
    memory_object_diff_buffer := 0, free_page_log := [], kfree_log := [],
    diff_buffer_new_calls := 0 }

/-- A one-page buffer at the given address, holding the given page. -/
def sample_buffer (addr page : Nat) : DiffBuffer :=
  { addr := addr, size := 4096, page_count := 1, pages := [some page, none] }

/-- A pool state with 8-sector chunks, the given pooled buffers and count. -/
def sample_state (pooled : List DiffBuffer) (count : Int) (oracle : List Bool) : State :=
  { area := { chunk_sectors := 8, free_diff_buffers := pooled,
              free_diff_buffers_count := count },
    mem := sample_mem oracle }

/-- The pool after the sample run: both buffers allocated by the run are pooled,
with count 2. -/
def sample_pooled_state : State :=
  { area := { chunk_sectors := 8,
              free_diff_buffers := [sample_buffer 100 101, sample_buffer 102 103],
              free_diff_buffers_count := 2 },
    mem := { sample_mem [] with
      next_addr := 104, memory_object_page := 2, memory_object_diff_buffer := 2,
      diff_buffer_new_calls := 2 } }

/-- An empty pool with 9-sector chunks and an allocator that grants three
requests. -/
def sample_nine_sectors : State :=
  { area := { chunk_sectors := 9, free_diff_buffers := [], free_diff_buffers_count := 0 },
    mem := sample_mem [true, true, true] }

/-- The buffer `diff_buffer_take` allocates in `sample_nine_sectors`: two pages
for 4608 bytes. -/
def sample_nine_sectors_buffer : DiffBuffer :=
  { addr := 100, size := 4608, page_count := 2, pages := [some 101, some 102, none] }

/-- A sample meaning of the handlers on a world that is a counter: every
handler adds its argument to the counter and returns the number of the request it
serves. -/
def sample_run (h : IoctlHandler) (arg : Nat) (w : Nat) : Nat × Int :=
  (w + arg, (request_set.indexOf h.serves : Nat))

/-- A snapshot-create request for the two devices 8:16 and 8:32, with every
copy and allocation succeeding and an engine that accepts any array and stores
the snapshot id 7. -/
def sample_create_env : SnapshotCreateEnv :=
  { request := some { count := 2, dev_id_array := 4096, id := 0 },
    user_dev_ids := [8388624, 8388640],
    kcalloc_ok := true,
    snapshot_create := fun _ _ => (0, 7),
    copy_to_user_ok := true }

/-- A tracker-collect request with a `NULL` array that can be read but not
written back, for a tracker that reports three devices. -/
def sample_collect_env_readonly : TrackerCollectEnv :=
  { request := some { count := 0, cbt_info_array := 0 },
    kcalloc_ok := true,
    tracker_collect := fun _ buf => (0, 3, buf.getD []),
    copy_array_ok := true,
    copy_to_user_ok := false }

/-- The same request in memory that can be written. -/
def sample_collect_env : TrackerCollectEnv :=
  { sample_collect_env_readonly with copy_to_user_ok := true }

/-- The same request for a tracker whose query fails with `-ENODEV` (-19). -/
def sample_collect_env_failing : TrackerCollectEnv :=
  { sample_collect_env with tracker_collect := fun _ buf => (-19, 0, buf.getD []) }

/-- The layout of the reply on a 64-bit kernel: pointers of 8 bytes and a header
of 32 bytes before the field `data`. -/
def sample_layout : ReplyLayout := { sizeof_karg := 8, data_offset := 32 }

/-- A wait-event request for snapshot 5 with a timeout of 100 ms, as read from the
caller: the reply fields are still zero. -/
def sample_wait_request : blk_snap_snapshot_event :=
  { id := 5, timeout_ms := 100, time_label := 0, code := 0,
    data := List.replicate 4064 0 }

/-- A low-free-space event at time 77 with an 8-byte payload. -/
def sample_event : event := { time := 77, code := 0, data := [1, 2, 3, 4, 5, 6, 7, 8] }

/-- Surroundings in which the request is readable and writable and the engine
yields `sample_event`. -/
def sample_wait_env : WaitEventEnv :=
  { kzalloc_ok := true, request := some sample_wait_request,
    snapshot_wait_event := fun _ _ => Except.ok sample_event,
    copy_to_user_ok := true }

/-- Surroundings in which the wait times out: the engine yields `-ENOENT` (-2). -/
def sample_wait_env_timeout : WaitEventEnv :=
  { sample_wait_env with snapshot_wait_event := fun _ _ => Except.error (-2) }

/-- An event whose payload has 4088 bytes, which is `PAGE_SIZE - 8`. -/
def sample_big_event : event := { time := 77, code := 0, data := List.replicate 4088 1 }

/-- Surroundings in which the engine yields `sample_big_event`. -/
def sample_wait_env_big : WaitEventEnv :=
  { sample_wait_env with snapshot_wait_event := fun _ _ => Except.ok sample_big_event }

/-- Surroundings of `ioctl_tracker_remove` with an unreadable request. -/
def unreadable_remove_env : TrackerRemoveEnv :=
  { request := none, tracker_remove := fun _ => 0 }

/-- Surroundings of `ioctl_tracker_collect` with an unreadable request. -/
def unreadable_collect_env : TrackerCollectEnv :=
  { sample_collect_env with request := none }

/-- Surroundings of `ioctl_tracker_read_cbt_map` with an unreadable request. -/
def unreadable_read_cbt_map_env : TrackerReadCbtMapEnv :=
  { request := none, tracker_read_cbt_bitmap := fun _ _ _ _ => 0 }

/-- Surroundings of `ioctl_tracker_mark_dirty_blocks` with an unreadable request. -/
def unreadable_mark_dirty_env : TrackerMarkDirtyBlocksEnv :=
  { request := none, kcalloc_ok := true, user_ranges := none,
    tracker_mark_dirty_blocks := fun _ _ _ => 0 }

/-- Surroundings of `ioctl_snapshot_create` with an unreadable request. -/
def unreadable_create_env : SnapshotCreateEnv :=
  { sample_create_env with request := none }

/-- Surroundings of `ioctl_snapshot_destroy` with an unreadable request. -/
def unreadable_destroy_env : SnapshotDestroyEnv :=
  { request := none, snapshot_destroy := fun _ => 0 }

/-- Surroundings of `ioctl_snapshot_append_storage` with an unreadable request. -/
def unreadable_append_env : SnapshotAppendStorageEnv :=
  { request := none, big_buffer_alloc_ok := true, user_ranges := none,
    snapshot_append_storage := fun _ _ _ _ => 0 }

/-- Surroundings of `ioctl_snapshot_take` with an unreadable request. -/
def unreadable_take_env : SnapshotTakeEnv :=
  { request := none, snapshot_take := fun _ => 0 }

/-- Surroundings of `ioctl_snapshot_wait_event` with an unreadable request. -/
def unreadable_wait_env : WaitEventEnv :=
  { sample_wait_env with request := none }

/-- Surroundings of `ioctl_snapshot_collect_images` with an unreadable request. -/
def unreadable_collect_images_env : SnapshotCollectImagesEnv :=
  { request := none, snapshot_collect_images := fun _ _ _ => (0, 0),
    copy_to_user_ok := true }

/-- The decimal form of a number: its decimal digits, most significant first,
without sign and without leading zeros. -/
def decimal (n : Nat) : List Char := Nat.toDigits 10 n

/-- Text of a snapshot uuid given to `--id`. -/
def sample_uuid : String := "6f1c2a9e-0d4b-4c57-9a3e-2b7f8c1d5e60"

/-- A machine with the block device `/dev/sda` (8:0), on which `uuid_parse` reads
`sample_uuid` as the id 7; the control device accepts every append-storage
request, answers a wait-event request with the event 1 when the timeout is
below 1000 ms and with `ENOENT` otherwise, and reports one image (8:0 shown as
252:0) for every collect-images request. -/
def sample_cli_env : CliEnv :=
  { stat := fun name => if name = "/dev/sda" then Except.ok 2048 else Except.error 2,
    uuid_parse := fun text => if text = sample_uuid.toList then some 7 else none,
    stack_id := 99,
    vector_data := 4096,
    major := fun dev => dev / 256,
    minor := fun dev => dev % 256,
    codes := { BLK_SNAP_EVENT_LOW_FREE_SPACE := 0, BLK_SNAP_EVENT_CORRUPTED := 1,
               BLK_SNAP_EVENT_TERMINATE := 2 },
    ioctl_append_storage := fun _ _ _ => (0, 0),
    ioctl_wait_event := fun _ timeout_ms =>
      if timeout_ms < 1000 then
        { ret := 0, errno := 0, time_label := 5, code := 1, data := [] }
      else { ret := -1, errno := 2, time_label := 0, code := 0, data := [] },
    ioctl_collect_images := fun param =>
      { ret := 0, errno := 0, param := { param with count := 1 },
        images := if param.image_info_array = 0 then []
                  else [{ orig_dev_id := 2048, image_dev_id := 64512 }] } }

/-- The command line `snapshot_appendstorage --id <uuid> --device /dev/sda
--range 0:8 2048:16` after parsing. -/
def sample_append_vm : VariablesMap :=
  [("id", [sample_uuid]), ("device", ["/dev/sda"]), ("range", ["0:8", "2048:16"])]

/-- The command line `snapshot_collect --id <uuid>` after parsing. -/
def sample_collect_vm : VariablesMap := [("id", [sample_uuid])]

/-- The command line `snapshot_waitevent --id <uuid> --timeout 5000` after
parsing. -/
def sample_wait_vm : VariablesMap := [("id", [sample_uuid]), ("timeout", ["5000"])]

/-! ## Properties of the buffer pool -/

/-- When the count is above the bound, `diff_buffer_release` frees the buffer and
leaves the pool as it was. -/
theorem diff_buffer_release_of_gt (P : Params) (s : State) (b : DiffBuffer)
    (h : s.area.free_diff_buffers_count > P.free_diff_buffer_pool_size) :
    diff_buffer_release P s b = { s with mem := diff_buffer_free s.mem (some b) } := by
  simp [diff_buffer_release, h]

/-- When the count is at most the bound, `diff_buffer_release` appends the buffer
to the free list, increments the count and frees nothing. -/
theorem diff_buffer_release_of_le (P : Params) (s : State) (b : DiffBuffer)
    (h : s.area.free_diff_buffers_count ≤ P.free_diff_buffer_pool_size) :
    diff_buffer_release P s b =
      { s with area := { s.area with
          free_diff_buffers := s.area.free_diff_buffers ++ [b],
          free_diff_buffers_count := s.area.free_diff_buffers_count + 1 } } := by
  have h1 : ¬ s.area.free_diff_buffers_count > P.free_diff_buffer_pool_size := by omega
  simp [diff_buffer_release, h1]

/-- C1, evaluated where the pooled count equals the bound: with
`free_diff_buffer_pool_size = 1` and one buffer pooled (count 1, which is not
below the bound), `diff_buffer_release` does not free the released buffer; it
appends it to the free list and raises the count to 2. -/
theorem diff_buffer_release_pools_at_bound :
    diff_buffer_release sample_params
        (sample_state [sample_buffer 10 11] 1 []) (sample_buffer 20 21) =
      sample_state [sample_buffer 10 11, sample_buffer 20 21] 2 [] := by
  decide

/-- The two takes of the sample run return the buffers that the run then
releases. -/
theorem sample_run_takes :
    (diff_buffer_take sample_params
        (sample_state [] 0 [true, true, true, true]) false).2 =
      Except.ok (sample_buffer 100 101) ∧
    (diff_buffer_take sample_params
        (diff_buffer_take sample_params
          (sample_state [] 0 [true, true, true, true]) false).1 false).2 =
      Except.ok (sample_buffer 102 103) :=
  ⟨rfl, rfl⟩

/-- The sample run: from the empty pool, two takes that allocate and then the
release of both buffers reach `sample_pooled_state`. -/
theorem sample_pooled_reachable : Reachable sample_params sample_pooled_state := by
  have r0 : Reachable sample_params (sample_state [] 0 [true, true, true, true]) :=
    Reachable.init 8 _
  have e1 : (diff_buffer_take sample_params
      (sample_state [] 0 [true, true, true, true]) false).1 =
      { area := { chunk_sectors := 8, free_diff_buffers := [],
                  free_diff_buffers_count := 0 },
        mem := { sample_mem [true, true] with
          next_addr := 102, memory_object_page := 1, memory_object_diff_buffer := 1,
          diff_buffer_new_calls := 1 } } := by decide
  have r1 := Reachable.take _ false r0
  rw [e1] at r1
  have e2 : (diff_buffer_take sample_params
      { area := { chunk_sectors := 8, free_diff_buffers := [],
                  free_diff_buffers_count := 0 },
        mem := { sample_mem [true, true] with
          next_addr := 102, memory_object_page := 1, memory_object_diff_buffer := 1,
          diff_buffer_new_calls := 1 } } false).1 =
      { area := { chunk_sectors := 8, free_diff_buffers := [],
                  free_diff_buffers_count := 0 },
        mem := { sample_mem [] with
          next_addr := 104, memory_object_page := 2, memory_object_diff_buffer := 2,
          diff_buffer_new_calls := 2 } } := by decide
  have r2 := Reachable.take _ false r1
  rw [e2] at r2
  have r3 := Reachable.release _ (sample_buffer 100 101) r2
  have r4 := Reachable.release _ (sample_buffer 102 103) r3
  have e4 : diff_buffer_release sample_params (diff_buffer_release sample_params
      { area := { chunk_sectors := 8, free_diff_buffers := [],
                  free_diff_buffers_count := 0 },
        mem := { sample_mem [] with
          next_addr := 104, memory_object_page := 2, memory_object_diff_buffer := 2,
          diff_buffer_new_calls := 2 } } (sample_buffer 100 101)) (sample_buffer 102 103) =
      sample_pooled_state := by decide
  rw [e4] at r4
  exact r4

/-- C2, evaluated on a run from the empty pool: with
`free_diff_buffer_pool_size = 1`, two takes that allocate followed by the release
of both buffers reach a state whose pooled count is 2, above the bound. -/
theorem reachable_count_above_bound :
    ∃ s : State, Reachable sample_params s ∧
      s.area.free_diff_buffers_count = 2 ∧
      ¬ s.area.free_diff_buffers_count ≤ sample_params.free_diff_buffer_pool_size :=
  ⟨sample_pooled_state, sample_pooled_reachable, by decide, by decide⟩

/-- C3: on a pool whose free list is not empty, `diff_buffer_take` (for either
value of `is_nowait`) returns the buffer at the head of the list, leaves the
tail of the list as the new free list, lowers the count by one, and does not
touch the allocator: in particular `diff_buffer_new` is not called. -/
theorem diff_buffer_take_pops_head (P : Params) (s : State) (is_nowait : Bool)
    (hne : s.area.free_diff_buffers ≠ []) :
    (diff_buffer_take P s is_nowait).2 = Except.ok (s.area.free_diff_buffers.head hne) ∧
    (diff_buffer_take P s is_nowait).1.area.free_diff_buffers =
      s.area.free_diff_buffers.tail ∧
    s.area.free_diff_buffers =
      s.area.free_diff_buffers.head hne ::
        (diff_buffer_take P s is_nowait).1.area.free_diff_buffers ∧
    (diff_buffer_take P s is_nowait).1.area.free_diff_buffers_count =
      s.area.free_diff_buffers_count - 1 ∧
    (diff_buffer_take P s is_nowait).1.area.chunk_sectors = s.area.chunk_sectors ∧
    (diff_buffer_take P s is_nowait).1.mem = s.mem ∧
    (diff_buffer_take P s is_nowait).1.mem.diff_buffer_new_calls =
      s.mem.diff_buffer_new_calls := by
  obtain ⟨a, m⟩ := s
  obtain ⟨cs, l, c⟩ := a
  cases l with
  | nil => exact absurd rfl hne
  | cons b rest => simp [diff_buffer_take]

/-- Instance of C3: two pooled buffers, non-blocking take. -/
theorem diff_buffer_take_pops_head_witness :
    (diff_buffer_take sample_params
        (sample_state [sample_buffer 10 11, sample_buffer 20 21] 2 []) true).2 =
      Except.ok (sample_buffer 10 11) ∧
    (diff_buffer_take sample_params
        (sample_state [sample_buffer 10 11, sample_buffer 20 21] 2 []) true).1 =
      sample_state [sample_buffer 20 21] 1 [] := by
  have h := diff_buffer_take_pops_head sample_params
    (sample_state [sample_buffer 10 11, sample_buffer 20 21] 2 []) true (by decide)
  exact ⟨h.1, by decide⟩

/-- On an empty free list `diff_buffer_take` is its allocating part. -/
theorem diff_buffer_take_of_nil (P : Params) (s : State) (is_nowait : Bool)
    (hempty : s.area.free_diff_buffers = []) :
    diff_buffer_take P s is_nowait =
      diff_buffer_take_new s is_nowait (take_page_count P s.area)
        (take_buffer_size s.area) := by
  unfold diff_buffer_take
  rw [hempty]

/-- A failed allocation makes the allocating part of `diff_buffer_take` return
the error chosen by `is_nowait`, with the pool untouched. -/
theorem diff_buffer_take_new_of_none (s : State) (is_nowait : Bool)
    (page_count buffer_size : Nat)
    (h : (diff_buffer_new s.mem page_count buffer_size
      (if is_nowait then GfpMask.noio_nowait else GfpMask.noio_only)).2 = none) :
    (diff_buffer_take_new s is_nowait page_count buffer_size).2 =
        Except.error (if is_nowait then -EAGAIN else -ENOMEM) ∧
      (diff_buffer_take_new s is_nowait page_count buffer_size).1.area = s.area := by
  unfold diff_buffer_take_new
  generalize diff_buffer_new s.mem page_count buffer_size
    (if is_nowait then GfpMask.noio_nowait else GfpMask.noio_only) = r at h ⊢
  obtain ⟨m, ob⟩ := r
  simp only at h
  subst h
  exact ⟨rfl, rfl⟩

/-- A buffer returned by the allocating part of `diff_buffer_take` is the one
`diff_buffer_new` produced. -/
theorem diff_buffer_take_new_ok (s s1 : State) (is_nowait : Bool)
    (page_count buffer_size : Nat) (b : DiffBuffer)
    (h : diff_buffer_take_new s is_nowait page_count buffer_size = (s1, Except.ok b)) :
    diff_buffer_new s.mem page_count buffer_size
      (if is_nowait then GfpMask.noio_nowait else GfpMask.noio_only) = (s1.mem, some b) := by
  unfold diff_buffer_take_new at h
  generalize diff_buffer_new s.mem page_count buffer_size
    (if is_nowait then GfpMask.noio_nowait else GfpMask.noio_only) = r at h ⊢
  obtain ⟨m, ob⟩ := r
  cases ob with
  | none => simp at h
  | some b0 =>
    simp only [Prod.mk.injEq, Except.ok.injEq] at h
    rw [← h.1, h.2]

/-- The allocating part of `diff_buffer_take` leaves the pool as it is. -/
theorem diff_buffer_take_new_area (s : State) (is_nowait : Bool)
    (page_count buffer_size : Nat) :
    (diff_buffer_take_new s is_nowait page_count buffer_size).1.area = s.area := by
  unfold diff_buffer_take_new
  generalize diff_buffer_new s.mem page_count buffer_size
    (if is_nowait then GfpMask.noio_nowait else GfpMask.noio_only) = r
  obtain ⟨m, ob⟩ := r
  cases ob <;> rfl

/-- C4: on a pool whose free list is empty, when the allocation of the new buffer
fails, `diff_buffer_take` returns `-EAGAIN` if `is_nowait` is set and `-ENOMEM`
otherwise, and the free list, the count and the rest of the pool are unchanged;
a computed page count of 0 is one way for the allocation to fail. -/
theorem diff_buffer_take_alloc_failure (P : Params) (s : State) (is_nowait : Bool)
    (hempty : s.area.free_diff_buffers = []) :
    ((diff_buffer_new s.mem (take_page_count P s.area) (take_buffer_size s.area)
          (if is_nowait then GfpMask.noio_nowait else GfpMask.noio_only)).2 = none →
      (diff_buffer_take P s is_nowait).2 =
          Except.error (if is_nowait then -EAGAIN else -ENOMEM) ∧
        (diff_buffer_take P s is_nowait).1.area = s.area) ∧
    (take_page_count P s.area = 0 →
      (diff_buffer_new s.mem (take_page_count P s.area) (take_buffer_size s.area)
          (if is_nowait then GfpMask.noio_nowait else GfpMask.noio_only)).2 = none) := by
  constructor
  · intro hfail
    rw [diff_buffer_take_of_nil P s is_nowait hempty]
    exact diff_buffer_take_new_of_none s is_nowait _ _ hfail
  · intro h0
    rw [h0]
    simp [diff_buffer_new]

/-- Instance of C4: 8-sector chunks on 4 KiB pages, the descriptor is allocated
and the page is refused. -/
theorem diff_buffer_take_alloc_failure_witness :
    (diff_buffer_take sample_params (sample_state [] 0 [true, false]) true).2 =
        Except.error (-11) ∧
    (diff_buffer_take sample_params (sample_state [] 0 [true, false]) false).2 =
        Except.error (-12) ∧
    (diff_buffer_take sample_params (sample_state [] 0 [true, false]) true).1.area =
        (sample_state [] 0 [true, false]).area := by
  have h1 := (diff_buffer_take_alloc_failure sample_params
    (sample_state [] 0 [true, false]) true rfl).1 (by decide)
  have h2 := (diff_buffer_take_alloc_failure sample_params
    (sample_state [] 0 [true, false]) false rfl).1 (by decide)
  exact ⟨h1.1, h2.1, h1.2⟩

/-- The function `free_pages_loop` appends the non-`NULL` slots to the page log
and lowers the page counter once for each. -/
theorem free_pages_loop_spec (ps : List (Option Nat)) (m : Mem) :
    free_pages_loop ps m =
      { m with free_page_log := m.free_page_log ++ ps.reduceOption,
               memory_object_page := m.memory_object_page - ps.reduceOption.length } := by
  induction ps generalizing m with
  | nil => simp [free_pages_loop]
  | cons p ps ih =>
    cases p with
    | none => simp [free_pages_loop, ih]
    | some page =>
      simp only [free_pages_loop, ih, List.reduceOption_cons_of_some, List.length_cons,
        List.append_assoc, List.singleton_append, Nat.cast_add, Nat.cast_one]
      congr 1
      omega

/-- Effect of `diff_buffer_free` on a buffer: its live pages and then its
descriptor are freed, and both counters lowered accordingly. -/
theorem diff_buffer_free_spec (m : Mem) (b : DiffBuffer) :
    diff_buffer_free m (some b) =
      { m with free_page_log := m.free_page_log ++ b.live_pages,
               memory_object_page := m.memory_object_page - b.live_pages.length,
               kfree_log := m.kfree_log ++ [b.addr],
               memory_object_diff_buffer := m.memory_object_diff_buffer - 1 } := by
  simp [diff_buffer_free, free_pages_loop_spec, DiffBuffer.live_pages]

/-- C6: with a positive `free_diff_buffer_pool_size` and a free list that is not
empty, releasing any buffer and then taking one returns the buffer that headed
the free list before the release, a pooled buffer, and `diff_buffer_new` is
called by neither step. -/
theorem release_then_take_reuses_pooled (P : Params) (s : State) (b : DiffBuffer)
    (is_nowait : Bool) (_hsize : 0 < P.free_diff_buffer_pool_size)
    (hne : s.area.free_diff_buffers ≠ []) :
    (diff_buffer_take P (diff_buffer_release P s b) is_nowait).2 =
        Except.ok (s.area.free_diff_buffers.head hne) ∧
      s.area.free_diff_buffers.head hne ∈ s.area.free_diff_buffers ∧
      (diff_buffer_take P (diff_buffer_release P s b) is_nowait).1.mem.diff_buffer_new_calls
        = s.mem.diff_buffer_new_calls := by
  obtain ⟨a, m⟩ := s
  obtain ⟨cs, l, c⟩ := a
  cases l with
  | nil => exact absurd rfl hne
  | cons h rest =>
    by_cases hc : c > P.free_diff_buffer_pool_size
    · simp [diff_buffer_release, hc, diff_buffer_take, diff_buffer_free_spec]
    · simp [diff_buffer_release, hc, diff_buffer_take]

/-- Instance of C6: pool size 1, one buffer pooled, another one released. -/
theorem release_then_take_reuses_pooled_witness :
    (diff_buffer_take sample_params
        (diff_buffer_release sample_params (sample_state [sample_buffer 10 11] 1 [])
          (sample_buffer 20 21)) false).2 = Except.ok (sample_buffer 10 11) ∧
    (diff_buffer_take sample_params
        (diff_buffer_release sample_params (sample_state [sample_buffer 10 11] 1 [])
          (sample_buffer 20 21)) false).1.mem.diff_buffer_new_calls = 0 := by
  have h := release_then_take_reuses_pooled sample_params
    (sample_state [sample_buffer 10 11] 1 []) (sample_buffer 20 21) false
    (by decide) (by decide)
  exact ⟨h.1, h.2.2⟩

/-- On an empty pool `drained` changes nothing. -/
theorem drained_of_nil (s : State) (h : s.area.free_diff_buffers = []) : drained s = s := by
  obtain ⟨a, m⟩ := s
  obtain ⟨cs, l, c⟩ := a
  simp only at h
  subst h
  simp [drained]

/-- One pass of the loop of `diff_buffer_cleanup` does not change where it ends. -/
theorem drained_cons (cs : Nat) (b : DiffBuffer) (rest : List DiffBuffer) (c : Int)
    (m : Mem) :
    drained { area := { chunk_sectors := cs, free_diff_buffers := rest,
                        free_diff_buffers_count := c - 1 },
              mem := diff_buffer_free m (some b) } =
      drained { area := { chunk_sectors := cs, free_diff_buffers := b :: rest,
                          free_diff_buffers_count := c },
                mem := m } := by
  simp only [drained, List.length_cons, List.foldl_cons, Nat.cast_add, Nat.cast_one,
    State.mk.injEq, DiffArea.mk.injEq, and_true, true_and]
  omega

/-- With more passes allowed than there are pooled buffers, the loop of
`diff_buffer_cleanup` ends, in the state `drained`. -/
theorem diff_buffer_cleanup_eq_drained (fuel : Nat) (s : State)
    (h : s.area.free_diff_buffers.length < fuel) :
    diff_buffer_cleanup fuel s = some (drained s) := by
  induction fuel generalizing s with
  | zero => omega
  | succ n ih =>
    obtain ⟨a, m⟩ := s
    obtain ⟨cs, l, c⟩ := a
    cases l with
    | nil => simp [diff_buffer_cleanup, diff_buffer_cleanup_pass, drained]
    | cons b rest =>
      simp only [List.length_cons, Nat.add_lt_add_iff_right] at h
      simp only [diff_buffer_cleanup, diff_buffer_cleanup_pass]
      rw [ih _ h]
      exact congrArg some (drained_cons cs b rest c m)

/-- Whenever the loop of `diff_buffer_cleanup` ends, it ends in the state
`drained`. -/
theorem diff_buffer_cleanup_some (fuel : Nat) (s s1 : State)
    (h : diff_buffer_cleanup fuel s = some s1) : s1 = drained s := by
  induction fuel generalizing s with
  | zero => simp [diff_buffer_cleanup] at h
  | succ n ih =>
    obtain ⟨a, m⟩ := s
    obtain ⟨cs, l, c⟩ := a
    cases l with
    | nil =>
      simp [diff_buffer_cleanup, diff_buffer_cleanup_pass] at h
      subst h
      simp [drained]
    | cons b rest =>
      simp only [diff_buffer_cleanup, diff_buffer_cleanup_pass] at h
      rw [ih _ h]
      exact drained_cons cs b rest c m

/-- Freeing a list of buffers logs their descriptors in list order. -/
theorem foldl_free_kfree_log (l : List DiffBuffer) (m : Mem) :
    (l.foldl (fun m b => diff_buffer_free m (some b)) m).kfree_log =
      m.kfree_log ++ l.map DiffBuffer.addr := by
  induction l generalizing m with
  | nil => simp
  | cons b rest ih =>
    rw [List.foldl_cons, ih, diff_buffer_free_spec]
    simp

/-- Freeing a list of buffers logs their live pages in list order. -/
theorem foldl_free_page_log (l : List DiffBuffer) (m : Mem) :
    (l.foldl (fun m b => diff_buffer_free m (some b)) m).free_page_log =
      m.free_page_log ++ l.flatMap DiffBuffer.live_pages := by
  induction l generalizing m with
  | nil => simp
  | cons b rest ih =>
    rw [List.foldl_cons, ih, diff_buffer_free_spec]
    simp

/-- In every reachable state the counter equals the length of the free list. -/
theorem reachable_count_eq_length (P : Params) (s : State) (hr : Reachable P s) :
    s.area.free_diff_buffers_count = s.area.free_diff_buffers.length := by
  induction hr with
  | init cs m => simp
  | take s nw _ ih =>
    cases hl : s.area.free_diff_buffers with
    | nil =>
      rw [diff_buffer_take_of_nil P s nw hl, diff_buffer_take_new_area]
      exact ih
    | cons b rest =>
      have h1 : (diff_buffer_take P s nw).1.area.free_diff_buffers = rest := by
        unfold diff_buffer_take
        rw [hl]
      have h2 : (diff_buffer_take P s nw).1.area.free_diff_buffers_count =
          s.area.free_diff_buffers_count - 1 := by
        unfold diff_buffer_take
        rw [hl]
      rw [h1, h2, ih, hl]
      simp
  | release s b _ ih =>
    unfold diff_buffer_release
    split
    · simpa using ih
    · simp only [List.length_append, List.length_singleton, Nat.cast_add, Nat.cast_one]
      omega
  | cleanup s s1 fuel _ h ih =>
    rw [diff_buffer_cleanup_some fuel s s1 h]
    simp only [drained, List.length_nil, Nat.cast_zero]
    omega

/-- What the release path does guarantee: in every reachable state the pooled
count is at most one above the bound (and at most 0 for a negative bound). -/
theorem reachable_count_le_bound_succ (P : Params) (s : State) (hr : Reachable P s) :
    s.area.free_diff_buffers_count ≤ max (P.free_diff_buffer_pool_size + 1) 0 := by
  induction hr with
  | init cs m => exact le_max_right _ _
  | take s nw hs ih =>
    cases hl : s.area.free_diff_buffers with
    | nil =>
      rw [diff_buffer_take_of_nil P s nw hl, diff_buffer_take_new_area]
      exact ih
    | cons b rest =>
      have h2 : (diff_buffer_take P s nw).1.area.free_diff_buffers_count =
          s.area.free_diff_buffers_count - 1 := by
        unfold diff_buffer_take
        rw [hl]
      rw [h2]
      omega
  | release s b _ ih =>
    unfold diff_buffer_release
    split
    · simpa using ih
    · simp only
      omega
  | cleanup s s1 fuel _ h ih =>
    rw [diff_buffer_cleanup_some fuel s s1 h]
    simp only [drained]
    omega

/-- C5: in every state reachable from the empty pool, the loop of
`diff_buffer_cleanup` ends (any number of passes above the number of pooled
buffers is enough) in a state with an empty free list and count 0; the
descriptors and the pages it frees are exactly those of the pooled buffers, each
list entry once and in list order; on an empty pool it changes nothing; and run
again on its own result it changes nothing. -/
theorem diff_buffer_cleanup_drains_pool (P : Params) (s : State) (hr : Reachable P s) :
    ∃ s1 : State,
      (∀ fuel, s.area.free_diff_buffers.length < fuel →
        diff_buffer_cleanup fuel s = some s1) ∧
      s1.area.free_diff_buffers = [] ∧
      s1.area.free_diff_buffers_count = 0 ∧
      s1.mem.kfree_log = s.mem.kfree_log ++ s.area.free_diff_buffers.map DiffBuffer.addr ∧
      s1.mem.free_page_log =
        s.mem.free_page_log ++ s.area.free_diff_buffers.flatMap DiffBuffer.live_pages ∧
      (s.area.free_diff_buffers = [] → s1 = s) ∧
      (∀ fuel, 0 < fuel → diff_buffer_cleanup fuel s1 = some s1) := by
  refine ⟨drained s, fun fuel h => diff_buffer_cleanup_eq_drained fuel s h, rfl, ?_,
    foldl_free_kfree_log _ _, foldl_free_page_log _ _, drained_of_nil s, ?_⟩
  · have := reachable_count_eq_length P s hr
    simp only [drained]
    omega
  · intro fuel hf
    have h := diff_buffer_cleanup_eq_drained fuel (drained s) (by simpa [drained] using hf)
    rw [h, drained_of_nil (drained s) rfl]

/-- Instance of C5: the pool reached by the sample run, with two pooled buffers,
is drained within three passes; both descriptors and both pages are freed once. -/
theorem diff_buffer_cleanup_drains_pool_witness :
    ∃ s1 : State,
      diff_buffer_cleanup 3 sample_pooled_state = some s1 ∧
      s1.area.free_diff_buffers = [] ∧
      s1.area.free_diff_buffers_count = 0 ∧
      s1.mem.kfree_log = [100, 102] ∧
      s1.mem.free_page_log = [101, 103] ∧
      diff_buffer_cleanup 1 s1 = some s1 := by
  obtain ⟨s1, h1, h2, h3, h4, h5, -, h7⟩ :=
    diff_buffer_cleanup_drains_pool sample_params sample_pooled_state
      sample_pooled_reachable
  exact ⟨s1, h1 3 (by decide), h2, h3, h4, h5, h7 1 (by decide)⟩

/-- Or-ing a number below `2 ^ k` with the mask `2 ^ k - 1` gives the mask. -/
theorem lor_low_mask (r k : Nat) (h : r < 2 ^ k) : r ||| (2 ^ k - 1) = 2 ^ k - 1 := by
  apply Nat.eq_of_testBit_eq
  intro i
  rw [Nat.testBit_or, Nat.testBit_two_pow_sub_one]
  by_cases hi : i < k
  · simp [hi]
  · have : r < 2 ^ i := lt_of_lt_of_le h (Nat.pow_le_pow_right (by decide) (by omega))
    simp [hi, Nat.testBit_lt_two_pow this]

/-- Or-ing with the mask `2 ^ k - 1` fills the low `k` bits. -/
theorem lor_mask_eq (a k : Nat) :
    a ||| (2 ^ k - 1) = 2 ^ k * (a / 2 ^ k) + (2 ^ k - 1) := by
  have hpos : 0 < 2 ^ k := Nat.two_pow_pos k
  have hr : a % 2 ^ k < 2 ^ k := Nat.mod_lt _ hpos
  have ha : a = 2 ^ k * (a / 2 ^ k) ||| a % 2 ^ k := by
    rw [← Nat.mul_add_lt_is_or hr, Nat.div_add_mod]
  have hm : 2 ^ k - 1 < 2 ^ k := by omega
  calc a ||| (2 ^ k - 1)
      = (2 ^ k * (a / 2 ^ k) ||| a % 2 ^ k) ||| (2 ^ k - 1) := by rw [← ha]
    _ = 2 ^ k * (a / 2 ^ k) ||| (a % 2 ^ k ||| (2 ^ k - 1)) := by rw [Nat.lor_assoc]
    _ = 2 ^ k * (a / 2 ^ k) ||| (2 ^ k - 1) := by rw [lor_low_mask _ _ hr]
    _ = 2 ^ k * (a / 2 ^ k) + (2 ^ k - 1) := by rw [← Nat.mul_add_lt_is_or hm]

/-- For `1 ≤ x < 2 ^ 64`, `round_up x (2 ^ k)` is the next multiple of `2 ^ k`, reduced
modulo `2 ^ 64`. -/
theorem round_up_eq (x k : Nat) (hx1 : 1 ≤ x) (hx : x < U64_MOD) :
    round_up x (2 ^ k) = (2 ^ k * ((x - 1) / 2 ^ k + 1)) % U64_MOD := by
  unfold round_up
  generalize U64_MOD = U at hx ⊢
  have h1 : x % U = x := Nat.mod_eq_of_lt hx
  have h2 : (x + (U - 1)) % U = x - 1 := by
    have : x + (U - 1) = (x - 1) + U := by omega
    rw [this, Nat.add_mod_right, Nat.mod_eq_of_lt (by omega)]
  have hpos : 0 < 2 ^ k := Nat.two_pow_pos k
  rw [h1, h2, lor_mask_eq, Nat.mul_add, Nat.mul_one]
  congr 1
  omega

/-- When the page loop of `diff_buffer_new` succeeds, the buffer keeps its address,
size and page count, and the oracle held a success for each iteration. -/
theorem alloc_pages_loop_some (g : GfpMask) (n inx : Nat) (m m1 : Mem) (b b1 : DiffBuffer)
    (h : alloc_pages_loop g n inx m b = (m1, some b1)) :
    b1.addr = b.addr ∧ b1.size = b.size ∧ b1.page_count = b.page_count ∧
      n ≤ m.oracle.count true := by
  induction n generalizing inx m b with
  | zero =>
    simp only [alloc_pages_loop, Prod.mk.injEq, Option.some.injEq] at h
    simp [h.2]
  | succ n ih =>
    obtain ⟨o, na, mp, mb, fl, kl, nc⟩ := m
    cases o with
    | nil => simp [alloc_pages_loop, Mem.alloc] at h
    | cons x rest =>
      cases x with
      | false => simp [alloc_pages_loop, Mem.alloc] at h
      | true =>
        simp only [alloc_pages_loop, Mem.alloc] at h
        have := ih _ _ _ h
        simp only at this
        simp only [List.count_cons_self]
        omega

/-- A buffer returned by `diff_buffer_new` has the requested size and page count,
the page count is positive, and the oracle held a success for the descriptor
and for each page. -/
theorem diff_buffer_new_some (m m1 : Mem) (page_count buffer_size : Nat) (g : GfpMask)
    (b : DiffBuffer) (h : diff_buffer_new m page_count buffer_size g = (m1, some b)) :
    b.size = buffer_size ∧ b.page_count = page_count ∧ 0 < page_count ∧
      page_count + 1 ≤ m.oracle.count true := by
  unfold diff_buffer_new at h
  by_cases hp : page_count ≤ 0
  · simp [hp] at h
  · obtain ⟨o, na, mp, mb, fl, kl, nc⟩ := m
    cases o with
    | nil => simp [hp, Mem.alloc] at h
    | cons x rest =>
      cases x with
      | false => simp [hp, Mem.alloc] at h
      | true =>
        simp only [hp, if_false, Mem.alloc] at h
        have := alloc_pages_loop_some _ _ _ _ _ _ _ h
        simp only at this
        simp only [List.count_cons_self]
        omega

/-- Arithmetic core of the page-count computation. -/
theorem page_count_arith (cs A pc U : Nat) (hA : 0 < A) (hcs1 : 1 ≤ cs) (hcs : cs < U)
    (hdvd : A ∣ U) (hpc : pc = (A * ((cs - 1) / A + 1)) % U / A) (hpos : 0 < pc) :
    pc = (cs - 1) / A + 1 ∧ cs ≤ A * pc ∧ A * (pc - 1) < cs := by
  obtain ⟨d, hd⟩ := hdvd
  have hq : (cs - 1) / A < d := by
    apply Nat.div_lt_of_lt_mul
    rw [← hd]; omega
  have hle : A * ((cs - 1) / A + 1) ≤ U := by
    rw [hd]; exact Nat.mul_le_mul_left A hq
  have hlt : A * ((cs - 1) / A + 1) < U := by
    rcases Nat.lt_or_ge (A * ((cs - 1) / A + 1)) U with h | h
    · exact h
    · have heq : A * ((cs - 1) / A + 1) = U := le_antisymm hle h
      rw [heq, Nat.mod_self, Nat.zero_div] at hpc
      omega
  rw [Nat.mod_eq_of_lt hlt, Nat.mul_div_cancel_left _ hA] at hpc
  have h1 : A * ((cs - 1) / A) ≤ cs - 1 := Nat.mul_div_le _ _
  have h2 : cs - 1 < A * ((cs - 1) / A + 1) := Nat.lt_mul_div_succ _ hA
  subst hpc
  refine ⟨rfl, by omega, ?_⟩
  simp only [Nat.add_sub_cancel]
  omega

/-- C7: for a chunk size of at least one sector (a `sector_t`), a buffer that
`diff_buffer_take` allocates on an empty pool has
`page_count = ceil(chunk_size / PAGE_SIZE)` and `size = chunk_size`, where
`chunk_size = chunk_sectors * 512`, so that
`page_count * PAGE_SIZE ≥ size > (page_count - 1) * PAGE_SIZE`. The page size is
at least a sector, and the allocator cannot hand out more page frames than the
64-bit address space holds. -/
theorem diff_buffer_take_new_geometry (P : Params) (s s1 : State) (is_nowait : Bool)
    (b : DiffBuffer)
    (hshift : SECTOR_SHIFT ≤ P.PAGE_SHIFT)
    (hcs1 : 1 ≤ s.area.chunk_sectors) (hcs : s.area.chunk_sectors < 2 ^ 64)
    (hmem : s.mem.oracle.count true * PAGE_SIZE P ≤ 2 ^ 64)
    (hempty : s.area.free_diff_buffers = [])
    (htake : diff_buffer_take P s is_nowait = (s1, Except.ok b)) :
    b.page_count = (s.area.chunk_sectors * 512 + PAGE_SIZE P - 1) / PAGE_SIZE P ∧
    b.size = s.area.chunk_sectors * 512 ∧
    b.page_count * PAGE_SIZE P ≥ b.size ∧
    b.size > (b.page_count - 1) * PAGE_SIZE P := by
  rw [diff_buffer_take_of_nil P s is_nowait hempty] at htake
  have hnew := diff_buffer_take_new_ok s s1 is_nowait _ _ b htake
  obtain ⟨hsize, hpc, hpos, hcnt⟩ := diff_buffer_new_some _ _ _ _ _ _ hnew
  -- the page size in terms of the sectors of a page
  have hPS : PAGE_SIZE P = 512 * PAGE_SECTORS P := by
    unfold PAGE_SIZE PAGE_SECTORS SECTOR_SHIFT
    unfold SECTOR_SHIFT at hshift
    have : P.PAGE_SHIFT = 9 + (P.PAGE_SHIFT - 9) := by omega
    conv_lhs => rw [this, Nat.pow_add]
  have hA : 0 < PAGE_SECTORS P := Nat.two_pow_pos _
  -- at least two successful allocations fit, so the page shift is below 64
  have hPS64 : P.PAGE_SHIFT < 64 := by
    by_contra hge
    have h1 : 2 ^ 64 ≤ PAGE_SIZE P := Nat.pow_le_pow_right (by decide) (by omega)
    have h2 : 2 * PAGE_SIZE P ≤ s.mem.oracle.count true * PAGE_SIZE P :=
      Nat.mul_le_mul_right _ (by omega)
    omega
  have hdvd : PAGE_SECTORS P ∣ U64_MOD := by
    unfold PAGE_SECTORS U64_MOD
    exact Nat.pow_dvd_pow 2 (by omega)
  have hcsU : s.area.chunk_sectors < U64_MOD := hcs
  have hcsmod : diff_area_chunk_sectors s.area = s.area.chunk_sectors := by
    unfold diff_area_chunk_sectors
    exact Nat.mod_eq_of_lt hcsU
  have hpcdef : take_page_count P s.area =
      (PAGE_SECTORS P * ((s.area.chunk_sectors - 1) / PAGE_SECTORS P + 1)) % U64_MOD /
        PAGE_SECTORS P := by
    unfold take_page_count
    rw [hcsmod]
    unfold PAGE_SECTORS
    rw [round_up_eq _ _ hcs1 hcsU]
  obtain ⟨-, hle, hgt⟩ := page_count_arith s.area.chunk_sectors (PAGE_SECTORS P)
    (take_page_count P s.area) U64_MOD hA hcs1 hcsU hdvd hpcdef hpos
  -- the pages of the buffer fit in the address space, so the byte size does not wrap
  have hfit : take_page_count P s.area * PAGE_SIZE P < 2 ^ 64 := by
    have h2 : (take_page_count P s.area + 1) * PAGE_SIZE P ≤
        s.mem.oracle.count true * PAGE_SIZE P := Nat.mul_le_mul_right _ hcnt
    have h3 : 0 < PAGE_SIZE P := Nat.two_pow_pos _
    rw [Nat.add_mul, Nat.one_mul] at h2
    omega
  have hbytes : s.area.chunk_sectors * 512 ≤ take_page_count P s.area * PAGE_SIZE P := by
    rw [hPS]
    calc s.area.chunk_sectors * 512
        ≤ (PAGE_SECTORS P * take_page_count P s.area) * 512 := Nat.mul_le_mul_right _ hle
      _ = take_page_count P s.area * (512 * PAGE_SECTORS P) := by ring
  have hbs : take_buffer_size s.area = s.area.chunk_sectors * 512 := by
    unfold take_buffer_size
    rw [hcsmod, Nat.shiftLeft_eq]
    unfold SECTOR_SHIFT U64_MOD
    exact Nat.mod_eq_of_lt (by omega)
  have hlow : (take_page_count P s.area - 1) * PAGE_SIZE P < s.area.chunk_sectors * 512 := by
    rw [hPS]
    calc (take_page_count P s.area - 1) * (512 * PAGE_SECTORS P)
        = (PAGE_SECTORS P * (take_page_count P s.area - 1)) * 512 := by ring
      _ < s.area.chunk_sectors * 512 := Nat.mul_lt_mul_of_pos_right hgt (by decide)
  have hB : 0 < PAGE_SIZE P := Nat.two_pow_pos _
  rw [hsize, hpc, hbs]
  refine ⟨?_, rfl, hbytes, hlow⟩
  symm
  apply Nat.div_eq_of_lt_le
  · have : take_page_count P s.area * PAGE_SIZE P =
        (take_page_count P s.area - 1) * PAGE_SIZE P + PAGE_SIZE P := by
      conv_lhs => rw [show take_page_count P s.area = (take_page_count P s.area - 1) + 1 by omega]
      rw [Nat.add_mul, Nat.one_mul]
    omega
  · rw [Nat.add_mul, Nat.one_mul]
    omega

/-- Instance of C7: 9-sector chunks on 4 KiB pages give a buffer of two pages
and 4608 bytes. -/
theorem diff_buffer_take_new_geometry_witness :
    (diff_buffer_take sample_params sample_nine_sectors true).2 =
        Except.ok sample_nine_sectors_buffer ∧
      sample_nine_sectors_buffer.page_count =
        (sample_nine_sectors.area.chunk_sectors * 512 + PAGE_SIZE sample_params - 1) /
          PAGE_SIZE sample_params ∧
      sample_nine_sectors_buffer.size = sample_nine_sectors.area.chunk_sectors * 512 ∧
      sample_nine_sectors_buffer.page_count * PAGE_SIZE sample_params ≥
        sample_nine_sectors_buffer.size ∧
      sample_nine_sectors_buffer.size >
        (sample_nine_sectors_buffer.page_count - 1) * PAGE_SIZE sample_params := by
  have htake : diff_buffer_take sample_params sample_nine_sectors true =
      ({ sample_nine_sectors with mem := { sample_mem [] with
          next_addr := 103, memory_object_page := 2, memory_object_diff_buffer := 1,
          diff_buffer_new_calls := 1 } },
        Except.ok sample_nine_sectors_buffer) := by rfl
  exact ⟨congrArg Prod.snd htake,
    diff_buffer_take_new_geometry sample_params sample_nine_sectors _ true
      sample_nine_sectors_buffer (by decide) (by decide) (by decide) (by decide) rfl htake⟩

/-! ## Properties of the control dispatch -/

/-- The opcode number is the low byte of the command. -/
theorem IOC_NR_eq_mod (cmd : Nat) : IOC_NR cmd = cmd % 256 := by
  unfold IOC_NR
  rw [Nat.shiftRight_zero]
  exact Nat.and_pow_two_sub_one_eq_mod cmd 8

/-- An opcode number above 11 is rejected with `-ENOTTY` before the handler table
is read. -/
theorem ctrl_unlocked_ioctl_above_eleven {σ : Type}
    (run : IoctlHandler → Nat → σ → σ × Int) (cmd arg : Nat) (w : σ)
    (h : 11 < IOC_NR cmd) :
    ctrl_unlocked_ioctl run cmd arg w = IoctlOutcome.returned (-ENOTTY) w := by
  unfold ctrl_unlocked_ioctl
  have hlen : blk_snap_ioctl_table.length = 11 := rfl
  simp only [hlen]
  rw [if_pos h]

/-- C8, evaluated at opcode number 11, the first number outside the 11 known
operations: the bound check `nr > 11` lets it pass, and `ctrl_unlocked_ioctl`
reads the handler table at index 11, one past its last entry, instead of
rejecting the request. -/
theorem ctrl_unlocked_ioctl_nr_eleven {σ : Type}
    (run : IoctlHandler → Nat → σ → σ × Int) (arg : Nat) (w : σ) :
    IOC_NR 11 = 11 ∧ blk_snap_ioctl_table.length = 11 ∧
      ctrl_unlocked_ioctl run 11 arg w = IoctlOutcome.out_of_bounds 11 :=
  ⟨rfl, rfl, rfl⟩

/-- C9: for every command whose opcode number is in `0 .. 10`,
`ctrl_unlocked_ioctl` invokes one handler, the entry of the handler table at
that number, which serves the request listed at that number in the control-plane
request set; the handler receives the caller's argument, and its result is what
`ctrl_unlocked_ioctl` returns. -/
theorem ctrl_unlocked_ioctl_dispatch {σ : Type}
    (run : IoctlHandler → Nat → σ → σ × Int) (cmd arg : Nat) (w : σ)
    (hnr : IOC_NR cmd ≤ 10) :
    ∃ h : IoctlHandler,
      blk_snap_ioctl_table[IOC_NR cmd]? = some (some h) ∧
      request_set[IOC_NR cmd]? = some h.serves ∧
      ctrl_unlocked_ioctl run cmd arg w =
        IoctlOutcome.called h arg (run h arg w).2 (run h arg w).1 := by
  unfold ctrl_unlocked_ioctl
  generalize IOC_NR cmd = nr at hnr ⊢
  have hlen : blk_snap_ioctl_table.length = 11 := rfl
  have hgt : ¬ nr > blk_snap_ioctl_table.length := by omega
  simp only [hgt, if_false]
  interval_cases nr
  · exact ⟨IoctlHandler.ioctl_version, rfl, rfl, rfl⟩
  · exact ⟨IoctlHandler.ioctl_tracker_remove, rfl, rfl, rfl⟩
  · exact ⟨IoctlHandler.ioctl_tracker_collect, rfl, rfl, rfl⟩
  · exact ⟨IoctlHandler.ioctl_tracker_read_cbt_map, rfl, rfl, rfl⟩
  · exact ⟨IoctlHandler.ioctl_tracker_mark_dirty_blocks, rfl, rfl, rfl⟩
  · exact ⟨IoctlHandler.ioctl_snapshot_create, rfl, rfl, rfl⟩
  · exact ⟨IoctlHandler.ioctl_snapshot_destroy, rfl, rfl, rfl⟩
  · exact ⟨IoctlHandler.ioctl_snapshot_append_storage, rfl, rfl, rfl⟩
  · exact ⟨IoctlHandler.ioctl_snapshot_take, rfl, rfl, rfl⟩
  · exact ⟨IoctlHandler.ioctl_snapshot_wait_event, rfl, rfl, rfl⟩
  · exact ⟨IoctlHandler.ioctl_snapshot_collect_images, rfl, rfl, rfl⟩

/-- Instance of C9: a command with opcode number 5 and argument 4096 reaches
`ioctl_snapshot_create`, which serves `snapshot_create`. -/
theorem ctrl_unlocked_ioctl_dispatch_witness :
    IOC_NR 3222820357 = 5 ∧
    ∃ h : IoctlHandler,
      blk_snap_ioctl_table[IOC_NR 3222820357]? = some (some h) ∧
      request_set[IOC_NR 3222820357]? = some h.serves ∧
      ctrl_unlocked_ioctl sample_run 3222820357 4096 (0 : Nat) =
        IoctlOutcome.called h 4096 (sample_run h 4096 0).2 (sample_run h 4096 0).1 :=
  ⟨by decide, ctrl_unlocked_ioctl_dispatch sample_run 3222820357 4096 0 (by decide)⟩

/-- Whatever device ids the caller stored, the array `ioctl_snapshot_create` gives
to `snapshot_create` is `count` zeroes. -/
theorem ioctl_snapshot_create_engine_call (karg : blk_snap_snapshot_create)
    (ids : List Nat) (sc : List Nat → Nat → Int × Nat) (w : Bool) :
    (ioctl_snapshot_create
      { request := some karg, user_dev_ids := ids, kcalloc_ok := true,
        snapshot_create := sc, copy_to_user_ok := w }).engine_call =
      some (List.replicate karg.count 0, karg.count) := by
  simp only [ioctl_snapshot_create]
  by_cases h1 : (sc (List.replicate karg.count 0) karg.count).1 ≠ 0
  · simp [h1]
  · cases w <;> simp [h1]

/-- C10, evaluated on a request with the two device ids 8:16 and 8:32:
`ioctl_snapshot_create` calls `snapshot_create` with the array `[0, 0]`, not with
the caller's device ids; the snapshot id the engine stores is returned to the
caller. -/
theorem ioctl_snapshot_create_ignores_dev_ids :
    ioctl_snapshot_create sample_create_env =
      { ret := 0, engine_call := some ([0, 0], 2),
        reply := some { count := 2, dev_id_array := 4096, id := 7 } } ∧
    sample_create_env.user_dev_ids = [8388624, 8388640] := by
  decide

/-! ## Properties of the handlers -/

/-- C11 as stated fails: a readable request with a `NULL` array whose memory
cannot be written. The tracker query succeeds, the copy back to the caller
fails, and `ioctl_tracker_collect` returns `-ENODATA` instead of 0, with nothing
written. -/
theorem ioctl_tracker_collect_readonly_request :
    sample_collect_env_readonly.request = some { count := 0, cbt_info_array := 0 } ∧
    (sample_collect_env_readonly.tracker_collect 0 none).1 = 0 ∧
    ioctl_tracker_collect sample_collect_env_readonly =
      { ret := -61, engine_call := some (0, none), array_written := none,
        reply := none } ∧
    (ioctl_tracker_collect sample_collect_env_readonly).ret ≠ 0 := by
  decide

/-- C11, amended: for every readable tracker-collect request whose
`cbt_info_array` is `NULL`, `ioctl_tracker_collect` queries the tracker with
capacity 0 and no buffer and writes no record; if the query fails it returns
that error and writes nothing back; if the query succeeds and the request can be
written back, it writes the tracker's count into the field `count` of the
caller's request and returns 0; if the query succeeds and the write-back fails,
it returns `-ENODATA` and writes nothing. -/
theorem ioctl_tracker_collect_count_query (e : TrackerCollectEnv)
    (karg : blk_snap_tracker_collect) (hreq : e.request = some karg)
    (hnull : karg.cbt_info_array = 0) :
    (ioctl_tracker_collect e).engine_call = some (0, none) ∧
    (ioctl_tracker_collect e).array_written = none ∧
    ((e.tracker_collect 0 none).1 ≠ 0 →
      (ioctl_tracker_collect e).ret = (e.tracker_collect 0 none).1 ∧
      (ioctl_tracker_collect e).reply = none) ∧
    ((e.tracker_collect 0 none).1 = 0 → e.copy_to_user_ok = true →
      (ioctl_tracker_collect e).ret = 0 ∧
      (ioctl_tracker_collect e).reply =
        some { karg with count := (e.tracker_collect 0 none).2.1 }) ∧
    ((e.tracker_collect 0 none).1 = 0 → e.copy_to_user_ok = false →
      (ioctl_tracker_collect e).ret = -ENODATA ∧
      (ioctl_tracker_collect e).reply = none) := by
  unfold ioctl_tracker_collect
  rw [hreq]
  simp only [hnull, if_true]
  by_cases h1 : (e.tracker_collect 0 none).1 ≠ 0
  · simp [h1]
  · have h1' : (e.tracker_collect 0 none).1 = 0 := by simpa using h1
    cases hw : e.copy_to_user_ok <;> simp [h1']

/-- Instance of C11, amended: the count query on writable memory stores the
count 3 and returns 0; with a failing tracker it returns the tracker's error. -/
theorem ioctl_tracker_collect_count_query_witness :
    (ioctl_tracker_collect sample_collect_env).engine_call = some (0, none) ∧
    (ioctl_tracker_collect sample_collect_env).array_written = none ∧
    (ioctl_tracker_collect sample_collect_env).ret = 0 ∧
    (ioctl_tracker_collect sample_collect_env).reply =
      some { count := 3, cbt_info_array := 0 } ∧
    (ioctl_tracker_collect sample_collect_env_failing).ret = -19 ∧
    (ioctl_tracker_collect sample_collect_env_failing).reply = none ∧
    (ioctl_tracker_collect sample_collect_env_readonly).ret = -ENODATA := by
  have h := ioctl_tracker_collect_count_query sample_collect_env
    { count := 0, cbt_info_array := 0 } rfl rfl
  have hf := ioctl_tracker_collect_count_query sample_collect_env_failing
    { count := 0, cbt_info_array := 0 } rfl rfl
  have hr := ioctl_tracker_collect_count_query sample_collect_env_readonly
    { count := 0, cbt_info_array := 0 } rfl rfl
  have h4 := h.2.2.2.1 (by decide) rfl
  have hf3 := hf.2.2.1 (by decide)
  have hr5 := hr.2.2.2.2 (by decide) rfl
  exact ⟨h.1, h.2.1, h4.1, h4.2, hf3.1, hf3.2, hr5.1⟩

/-- C12: for a readable wait-event request for which the handler reaches its call
of `snapshot_wait_event`: if the call yields an event whose payload fits the
field `data` of the reply and the reply can be written, the handler returns 0 and
the reply carries the event's time in `time_label`, the event's code in `code`
and the event's payload at the start of `data`; if the call yields an error, the
handler returns that error code and writes nothing back. The pointer size is at
most the size of the reply header. -/
theorem ioctl_snapshot_wait_event_reply (P : Params) (L : ReplyLayout) (e : WaitEventEnv)
    (karg : blk_snap_snapshot_event)
    (hlayout : L.sizeof_karg ≤ L.data_offset)
    (halloc : e.kzalloc_ok = true) (hreq : e.request = some karg) :
    (∀ ev : event, e.snapshot_wait_event karg.id karg.timeout_ms = Except.ok ev →
      ev.data_size ≤ PAGE_SIZE P - L.data_offset → e.copy_to_user_ok = true →
      (ioctl_snapshot_wait_event P L e).ret = 0 ∧
      ∃ r : blk_snap_snapshot_event,
        (ioctl_snapshot_wait_event P L e).reply = some r ∧
        r.time_label = ev.time ∧ r.code = ev.code ∧
        r.data.take ev.data_size = ev.data) ∧
    (∀ err : Int, e.snapshot_wait_event karg.id karg.timeout_ms = Except.error err →
      (ioctl_snapshot_wait_event P L e).ret = err ∧
      (ioctl_snapshot_wait_event P L e).reply = none) := by
  constructor
  · intro ev hev hfit hw
    have hbound : PAGE_SIZE P - L.data_offset ≤ PAGE_SIZE P - L.sizeof_karg := by omega
    have hle : ev.data_size ≤ PAGE_SIZE P - L.sizeof_karg := le_trans hfit hbound
    have hn : min ev.data_size (PAGE_SIZE P - L.sizeof_karg) = ev.data_size :=
      Nat.min_eq_left hle
    have hm : min ev.data_size (PAGE_SIZE P - L.data_offset) = ev.data_size :=
      Nat.min_eq_left hfit
    have hgt : ¬ ev.data_size > PAGE_SIZE P - L.sizeof_karg := by omega
    unfold ioctl_snapshot_wait_event
    simp only [halloc, hreq, hev, hw, hn, hm, hgt, if_false]
    refine ⟨rfl, _, rfl, rfl, rfl, ?_⟩
    simp [event.data_size]
  · intro err herr
    unfold ioctl_snapshot_wait_event
    simp only [halloc, hreq, herr]
    exact ⟨rfl, rfl⟩

/-- Instance of C12: an 8-byte event is delivered; a timeout is returned as
`-ENOENT` with no reply. -/
theorem ioctl_snapshot_wait_event_reply_witness :
    (ioctl_snapshot_wait_event sample_params sample_layout sample_wait_env).ret = 0 ∧
    (∃ r : blk_snap_snapshot_event,
      (ioctl_snapshot_wait_event sample_params sample_layout sample_wait_env).reply =
        some r ∧
      r.time_label = 77 ∧ r.code = 0 ∧ r.data.take 8 = [1, 2, 3, 4, 5, 6, 7, 8]) ∧
    (ioctl_snapshot_wait_event sample_params sample_layout sample_wait_env_timeout).ret
      = -2 ∧
    (ioctl_snapshot_wait_event sample_params sample_layout sample_wait_env_timeout).reply
      = none := by
  have h := (ioctl_snapshot_wait_event_reply sample_params sample_layout sample_wait_env
    sample_wait_request (by decide) rfl rfl).1 sample_event rfl (by decide) rfl
  have ht := (ioctl_snapshot_wait_event_reply sample_params sample_layout
    sample_wait_env_timeout sample_wait_request (by decide) rfl rfl).2 (-2) rfl
  exact ⟨h.1, h.2, ht.1, ht.2⟩

/-- The length `ioctl_snapshot_wait_event` gives to `memcpy` when it reaches it is
the payload size capped at `PAGE_SIZE - sizeof(karg)`, whatever the room of the
field `data`; and when the reply is written, the return value is `-ENOSPC`
exactly when the payload exceeds that cap. -/
theorem ioctl_snapshot_wait_event_copied (P : Params) (L : ReplyLayout) (e : WaitEventEnv)
    (karg : blk_snap_snapshot_event) (ev : event)
    (halloc : e.kzalloc_ok = true) (hreq : e.request = some karg)
    (hev : e.snapshot_wait_event karg.id karg.timeout_ms = Except.ok ev) :
    (ioctl_snapshot_wait_event P L e).copied =
        min ev.data_size (PAGE_SIZE P - L.sizeof_karg) ∧
      (ioctl_snapshot_wait_event P L e).overrun =
        min ev.data_size (PAGE_SIZE P - L.sizeof_karg) - (PAGE_SIZE P - L.data_offset) ∧
      (e.copy_to_user_ok = true →
        (ioctl_snapshot_wait_event P L e).ret =
          if ev.data_size > PAGE_SIZE P - L.sizeof_karg then -ENOSPC else 0) := by
  unfold ioctl_snapshot_wait_event
  simp only [halloc, hreq, hev]
  cases e.copy_to_user_ok
  · exact ⟨rfl, rfl, fun h => absurd h (by decide)⟩
  · exact ⟨rfl, rfl, fun _ => rfl⟩

/-- C19, evaluated on 4 KiB pages with 8-byte pointers and a 32-byte reply header,
for an event with a payload of 4088 bytes: the field `data` has room for 4064
bytes, `ioctl_snapshot_wait_event` gives `memcpy` a length of 4088, so 24 bytes are
written past the end of the `PAGE_SIZE` buffer, and the handler returns 0, not
`-ENOSPC`. -/
theorem ioctl_snapshot_wait_event_overrun :
    sample_big_event.data_size = 4088 ∧
    PAGE_SIZE sample_params - sample_layout.data_offset = 4064 ∧
    (ioctl_snapshot_wait_event sample_params sample_layout sample_wait_env_big).copied
      = 4088 ∧
    (ioctl_snapshot_wait_event sample_params sample_layout sample_wait_env_big).overrun
      = 24 ∧
    (ioctl_snapshot_wait_event sample_params sample_layout sample_wait_env_big).ret
      = 0 := by
  have hsize : sample_big_event.data_size = 4088 := List.length_replicate _ _
  have h := ioctl_snapshot_wait_event_copied sample_params sample_layout
    sample_wait_env_big sample_wait_request sample_big_event rfl rfl rfl
  rw [hsize] at h
  exact ⟨hsize, by decide, h.1, h.2.1, h.2.2 rfl⟩

/-- C13: each of the ten handlers that read a request returns a negative error
code and does not call its engine operation when the request cannot be read from
the caller's buffer; for the two handlers that read a second array from the
caller, the same holds when that array cannot be read. -/
theorem handlers_reject_unreadable_request
    (e1 : TrackerRemoveEnv) (e2 : TrackerCollectEnv) (e3 : TrackerReadCbtMapEnv)
    (e4 : TrackerMarkDirtyBlocksEnv) (e5 : SnapshotCreateEnv) (e6 : SnapshotDestroyEnv)
    (e7 : SnapshotAppendStorageEnv) (e8 : SnapshotTakeEnv) (e9 : WaitEventEnv)
    (e10 : SnapshotCollectImagesEnv) (P : Params) (L : ReplyLayout) :
    (e1.request = none →
      (ioctl_tracker_remove e1).ret < 0 ∧ (ioctl_tracker_remove e1).engine_call = none) ∧
    (e2.request = none →
      (ioctl_tracker_collect e2).ret < 0 ∧
      (ioctl_tracker_collect e2).engine_call = none) ∧
    (e3.request = none →
      (ioctl_tracker_read_cbt_map e3).ret < 0 ∧
      (ioctl_tracker_read_cbt_map e3).engine_call = none) ∧
    (e4.request = none ∨ e4.user_ranges = none →
      (ioctl_tracker_mark_dirty_blocks e4).ret < 0 ∧
      (ioctl_tracker_mark_dirty_blocks e4).engine_call = none) ∧
    (e5.request = none →
      (ioctl_snapshot_create e5).ret < 0 ∧
      (ioctl_snapshot_create e5).engine_call = none) ∧
    (e6.request = none →
      (ioctl_snapshot_destroy e6).ret < 0 ∧
      (ioctl_snapshot_destroy e6).engine_call = none) ∧
    (e7.request = none ∨ e7.user_ranges = none →
      (ioctl_snapshot_append_storage e7).ret < 0 ∧
      (ioctl_snapshot_append_storage e7).engine_call = none) ∧
    (e8.request = none →
      (ioctl_snapshot_take e8).ret < 0 ∧ (ioctl_snapshot_take e8).engine_call = none) ∧
    (e9.request = none →
      (ioctl_snapshot_wait_event P L e9).ret < 0 ∧
      (ioctl_snapshot_wait_event P L e9).engine_call = none) ∧
    (e10.request = none →
      (ioctl_snapshot_collect_images e10).ret < 0 ∧
      (ioctl_snapshot_collect_images e10).engine_call = none) := by
  refine ⟨?_, ?_, ?_, ?_, ?_, ?_, ?_, ?_, ?_, ?_⟩
  · intro h
    simp [ioctl_tracker_remove, h, ENODATA]
  · intro h
    simp [ioctl_tracker_collect, h, ENODATA]
  · intro h
    simp [ioctl_tracker_read_cbt_map, h, ENODATA]
  · intro h
    unfold ioctl_tracker_mark_dirty_blocks
    cases hr : e4.request with
    | none => simp [ENODATA]
    | some karg =>
      have hu : e4.user_ranges = none := by
        rcases h with h | h
        · rw [hr] at h; cases h
        · exact h
      cases e4.kcalloc_ok <;> simp [hu, ENODATA, ENOMEM]
  · intro h
    simp [ioctl_snapshot_create, h, ENODATA]
  · intro h
    simp [ioctl_snapshot_destroy, h, ENODATA]
  · intro h
    unfold ioctl_snapshot_append_storage
    cases hr : e7.request with
    | none => simp [EINVAL]
    | some karg =>
      have hu : e7.user_ranges = none := by
        rcases h with h | h
        · rw [hr] at h; cases h
        · exact h
      cases e7.big_buffer_alloc_ok <;> simp [hu, ENODATA, ENOMEM]
  · intro h
    simp [ioctl_snapshot_take, h, ENODATA]
  · intro h
    unfold ioctl_snapshot_wait_event
    cases e9.kzalloc_ok <;> simp [h, EINVAL, ENOMEM]
  · intro h
    simp [ioctl_snapshot_collect_images, h, ENODATA]

/-- Instance of C13: the ten handlers on requests that cannot be read. -/
theorem handlers_reject_unreadable_request_witness :
    ((ioctl_tracker_remove unreadable_remove_env).ret < 0 ∧
      (ioctl_tracker_remove unreadable_remove_env).engine_call = none) ∧
    ((ioctl_tracker_collect unreadable_collect_env).ret < 0 ∧
      (ioctl_tracker_collect unreadable_collect_env).engine_call = none) ∧
    ((ioctl_tracker_read_cbt_map unreadable_read_cbt_map_env).ret < 0 ∧
      (ioctl_tracker_read_cbt_map unreadable_read_cbt_map_env).engine_call = none) ∧
    ((ioctl_tracker_mark_dirty_blocks unreadable_mark_dirty_env).ret < 0 ∧
      (ioctl_tracker_mark_dirty_blocks unreadable_mark_dirty_env).engine_call = none) ∧
    ((ioctl_snapshot_create unreadable_create_env).ret < 0 ∧
      (ioctl_snapshot_create unreadable_create_env).engine_call = none) ∧
    ((ioctl_snapshot_destroy unreadable_destroy_env).ret < 0 ∧
      (ioctl_snapshot_destroy unreadable_destroy_env).engine_call = none) ∧
    ((ioctl_snapshot_append_storage unreadable_append_env).ret < 0 ∧
      (ioctl_snapshot_append_storage unreadable_append_env).engine_call = none) ∧
    ((ioctl_snapshot_take unreadable_take_env).ret < 0 ∧
      (ioctl_snapshot_take unreadable_take_env).engine_call = none) ∧
    ((ioctl_snapshot_wait_event sample_params sample_layout unreadable_wait_env).ret < 0 ∧
      (ioctl_snapshot_wait_event sample_params sample_layout
        unreadable_wait_env).engine_call = none) ∧
    ((ioctl_snapshot_collect_images unreadable_collect_images_env).ret < 0 ∧
      (ioctl_snapshot_collect_images unreadable_collect_images_env).engine_call = none) := by
  obtain ⟨h1, h2, h3, h4, h5, h6, h7, h8, h9, h10⟩ :=
    handlers_reject_unreadable_request unreadable_remove_env unreadable_collect_env
      unreadable_read_cbt_map_env unreadable_mark_dirty_env unreadable_create_env
      unreadable_destroy_env unreadable_append_env unreadable_take_env
      unreadable_wait_env unreadable_collect_images_env sample_params sample_layout
  exact ⟨h1 rfl, h2 rfl, h3 rfl, h4 (Or.inl rfl), h5 rfl, h6 rfl, h7 (Or.inl rfl),
    h8 rfl, h9 rfl, h10 rfl⟩

/-! ## Properties of the command line tool -/

/-- The digit characters produced for the numbers below ten are digits with the
right value. -/
theorem digitChar_spec : ∀ k, k < 10 →
    isdigit (Nat.digitChar k) = true ∧ digit_value (Nat.digitChar k) = k := by
  decide

/-- Reading back the digits produced by `Nat.toDigitsCore` gives the number. -/
theorem toDigitsCore_foldl (fuel n : Nat) (ds : List Char) (h : n < fuel) :
    (Nat.toDigitsCore 10 fuel n ds).foldl (fun acc c => acc * 10 + digit_value c) 0 =
      ds.foldl (fun acc c => acc * 10 + digit_value c) n := by
  induction fuel generalizing n ds with
  | zero => omega
  | succ fuel ih =>
    have hd := (digitChar_spec (n % 10) (Nat.mod_lt _ (by decide))).2
    unfold Nat.toDigitsCore
    simp only
    split
    · rename_i h0
      simp only [List.foldl_cons, Nat.zero_mul, Nat.zero_add, hd]
      congr 1
      omega
    · rename_i h0
      rw [ih _ _ (by omega)]
      simp only [List.foldl_cons, hd]
      congr 1
      omega

/-- The characters produced by `Nat.toDigitsCore` are digits. -/
theorem toDigitsCore_all (fuel n : Nat) (ds : List Char) :
    ∀ c ∈ Nat.toDigitsCore 10 fuel n ds, isdigit c = true ∨ c ∈ ds := by
  induction fuel generalizing n ds with
  | zero => intro c hc; exact Or.inr hc
  | succ fuel ih =>
    have hd := (digitChar_spec (n % 10) (Nat.mod_lt _ (by decide))).1
    unfold Nat.toDigitsCore
    simp only
    split
    · intro c hc
      rcases List.mem_cons.mp hc with h | h
      · left; rw [h]; exact hd
      · right; exact h
    · intro c hc
      rcases ih _ _ c hc with h | h
      · left; exact h
      · rcases List.mem_cons.mp h with h | h
        · left; rw [h]; exact hd
        · right; exact h

/-- The function `Nat.toDigitsCore` produces at least one character. -/
theorem toDigitsCore_ne_nil (fuel n : Nat) (ds : List Char) (h : ds ≠ [] ∨ 0 < fuel) :
    Nat.toDigitsCore 10 fuel n ds ≠ [] := by
  induction fuel generalizing n ds with
  | zero =>
    rcases h with h | h
    · exact h
    · omega
  | succ fuel ih =>
    unfold Nat.toDigitsCore
    simp only
    split
    · simp
    · exact ih _ _ (Or.inl (by simp))


/-- The decimal form consists of digits only. -/
theorem decimal_all_digits (n : Nat) : ∀ c ∈ decimal n, isdigit c = true := by
  intro c hc
  rcases toDigitsCore_all (n + 1) n [] c hc with h | h
  · exact h
  · cases h

/-- The decimal form is not empty. -/
theorem decimal_ne_nil (n : Nat) : decimal n ≠ [] :=
  toDigitsCore_ne_nil (n + 1) n [] (Or.inr (Nat.succ_pos n))

/-- Reading the decimal form back gives the number. -/
theorem parse_digits_decimal (n : Nat) : parse_digits (decimal n) = n := by
  unfold parse_digits decimal Nat.toDigits
  rw [toDigitsCore_foldl (n + 1) n [] (Nat.lt_succ_self n)]
  rfl

/-- The function `std::stoull` reads the decimal form of a 64-bit number back. -/
theorem stoull_decimal (n : Nat) (h : n < 2 ^ 64) : stoull (decimal n) = Except.ok n := by
  have hall := decimal_all_digits n
  have hne := decimal_ne_nil n
  have hparse := parse_digits_decimal n
  generalize decimal n = l at hall hne hparse
  cases l with
  | nil => exact absurd rfl hne
  | cons x xs =>
    have hx : isdigit x = true := hall x (List.mem_cons_self x xs)
    have hxs : ¬ isspace x = true := by
      simp only [isdigit, isspace, Bool.and_eq_true, Bool.or_eq_true, decide_eq_true_eq] at hx ⊢
      omega
    have hminus : x ≠ '-' := by
      intro h; rw [h] at hx; exact absurd hx (by decide)
    have hplus : x ≠ '+' := by
      intro h; rw [h] at hx; exact absurd hx (by decide)
    have htake : (x :: xs).takeWhile isdigit = x :: xs :=
      List.takeWhile_eq_self_iff.mpr hall
    have hstrip : strip_sign (x :: xs) = x :: xs := by
      unfold strip_sign
      split
      · rename_i r heq
        exact absurd (List.cons.inj heq).1 hminus
      · rename_i r heq
        exact absurd (List.cons.inj heq).1 hplus
      · rfl
    have hscan : strto_scan (x :: xs) = some (false, n) := by
      unfold strto_scan
      have hdrop : (x :: xs).dropWhile isspace = x :: xs := by
        simp [List.dropWhile_cons, hxs]
      rw [hdrop]
      simp only [hstrip, htake, hparse]
      simp [hminus]
    unfold stoull
    rw [hscan]
    have hlt : ¬ n ≥ 2 ^ 64 := by omega
    simp only [hlt, if_false]
    rfl

/-- The colon is found right after a run of digits. -/
theorem string_find_colon (l rest : List Char) (h : ∀ c ∈ l, isdigit c = true) :
    string_find (l ++ ':' :: rest) ':' = some l.length := by
  induction l with
  | nil => simp [string_find]
  | cons x xs ih =>
    have hx : x ≠ ':' := by
      intro hc
      have := h x (List.mem_cons_self x xs)
      rw [hc] at this
      exact absurd this (by decide)
    have ih' := ih (fun c hc => h c (List.mem_cons_of_mem x hc))
    simp [string_find, hx, ih']

/-- A string without the character is searched in vain. -/
theorem string_find_none (l : List Char) (c : Char) (h : c ∉ l) :
    string_find l c = none := by
  induction l with
  | nil => rfl
  | cons x xs ih =>
    have hx : x ≠ c := fun hc => h (hc ▸ List.mem_cons_self x xs)
    have ih' := ih (fun hc => h (List.mem_cons_of_mem x hc))
    simp [string_find, hx, ih']

/-- C14: for all unsigned 64-bit values `a` and `b`, `parseRange` applied to the
decimal form of `a`, a colon and the decimal form of `b` returns the range with
`sector_offset = a` and `sector_count = b`. -/
theorem parseRange_decimal (a b : Nat) (ha : a < 2 ^ 64) (hb : b < 2 ^ 64) :
    parseRange (decimal a ++ ':' :: decimal b) =
      Except.ok { sector_offset := a, sector_count := b } := by
  unfold parseRange
  rw [string_find_colon _ _ (decimal_all_digits a)]
  have h1 : List.take (decimal a).length (decimal a ++ ':' :: decimal b) = decimal a := by
    simp
  have h2 : List.drop ((decimal a).length + 1) (decimal a ++ ':' :: decimal b) =
      decimal b := by
    simp
  simp only [h1, h2, stoull_decimal a ha, stoull_decimal b hb]

/-- C15: for every string without the character `:`, `parseRange` produces no
range and throws `invalid_argument` with the text
"Invalid format of range string.". -/
theorem parseRange_without_colon (str : List Char) (h : ':' ∉ str) :
    parseRange str =
      Except.error (CliError.invalid_argument "Invalid format of range string.") := by
  unfold parseRange
  rw [string_find_none str ':' h]

/-- Instance of C14: the string "2048:18446744073709551615". -/
theorem parseRange_decimal_witness :
    decimal 2048 ++ ':' :: decimal 18446744073709551615 =
      "2048:18446744073709551615".toList ∧
    parseRange (decimal 2048 ++ ':' :: decimal 18446744073709551615) =
      Except.ok { sector_offset := 2048, sector_count := 18446744073709551615 } :=
  ⟨by decide, parseRange_decimal 2048 18446744073709551615 (by decide) (by decide)⟩

/-- Instance of C15: the string "2048-4096". -/
theorem parseRange_without_colon_witness :
    parseRange "2048-4096".toList =
      Except.error (CliError.invalid_argument "Invalid format of range string.") :=
  parseRange_without_colon "2048-4096".toList (by decide)

/-! ## Properties of the commands of the tool -/

/-- The requests of `SnapshotAppendStorageArgsProc::Execute` when the parsed
command line has no option called `ranges`: none is submitted. -/
theorem SnapshotAppendStorageArgsProc_no_request (env : CliEnv) (vm : VariablesMap)
    (h : vm.count "ranges" = 0) :
    (SnapshotAppendStorageArgsProc.Execute env vm).requests = [] := by
  unfold SnapshotAppendStorageArgsProc.Execute
  split
  · rfl
  · split
    · rfl
    · split
      · rfl
      · split
        · rfl
        · split
          · rfl
          · simp [h]

/-- C16 fails: for `--id <uuid> --device /dev/sda --range 0:8 2048:16`, where the
device exists and both ranges are well formed, the command throws
"Argument 'ranges' is missed." and submits no request, because it looks for an
option called `ranges` while the option is declared as `range`. -/
theorem SnapshotAppendStorageArgsProc_ranges_missed :
    sample_append_vm.count "id" = 1 ∧ sample_append_vm.count "file" = 0 ∧
    (sample_append_vm.as_string "device").bind (deviceByName sample_cli_env) =
      Except.ok 2048 ∧
    (sample_append_vm.as_strings "range").bind parse_ranges =
      Except.ok [{ sector_offset := 0, sector_count := 8 },
                 { sector_offset := 2048, sector_count := 16 }] ∧
    SnapshotAppendStorageArgsProc.Execute sample_cli_env sample_append_vm =
      { requests := [], output := [],
        thrown := some (CliError.invalid_argument "Argument 'ranges' is missed.") } := by
  refine ⟨by decide, by decide, by rfl, by rfl, by rfl⟩

/-- The method `SnapshotCollectArgsProc::Execute` looks at the command line only
to see whether `--json` is present: two command lines that agree there give the
same run, whatever `--id` says. -/
theorem SnapshotCollectArgsProc_ignores_id (env : CliEnv) (vm vm1 : VariablesMap)
    (h : vm.count "json" = vm1.count "json") :
    SnapshotCollectArgsProc.Execute env vm = SnapshotCollectArgsProc.Execute env vm1 := by
  unfold SnapshotCollectArgsProc.Execute
  rw [h]

/-- C17 fails: for `snapshot_collect --id <uuid>`, where `uuid_parse` reads the
uuid as the id 7, both collect-images requests carry the id 0 of the initialiser
`param = {0}`; the option `--id` is never read. -/
theorem SnapshotCollectArgsProc_requests_carry_zero_id :
    sample_collect_vm.as_string "id" = Except.ok sample_uuid ∧
    parse_id_option sample_cli_env sample_uuid = 7 ∧
    (SnapshotCollectArgsProc.Execute sample_cli_env sample_collect_vm).requests =
      [CliRequest.snapshot_collect_images { id := 0, count := 0, image_info_array := 0 },
       CliRequest.snapshot_collect_images
         { id := 0, count := 1, image_info_array := 4096 }] := by
  refine ⟨by rfl, by rfl, by rfl⟩

/-- An option whose value can be read was given on the command line. -/
theorem VariablesMap.count_of_as_string (vm : VariablesMap) (name value : String)
    (h : vm.as_string name = Except.ok value) : vm.count name = 1 := by
  unfold VariablesMap.as_string at h
  unfold VariablesMap.count
  cases hl : vm.lookup name with
  | none => rw [hl] at h; cases h
  | some vs => rfl

/-- C18: when `snapshot_waitevent` is run without `--json` and with an id and a
timeout that can be read, it submits one wait-event request, and for every
answer to it: a failure with `ENOENT` prints "result=timeout" and a failure with
`EINTR` prints "result=interrupted", both without an exception; a failure with
any other `errno` throws `system_error` and prints nothing; a success prints
"result=ok", the time and the event (low_free_space with the requested sectors,
corrupted, terminate, or the number of any other code), without an exception. -/
theorem SnapshotWaitEventArgsProc_Execute_outcomes (env : CliEnv) (vm : VariablesMap)
    (id_value timeout_value : String) (timeout : Int) (answer : WaitEventAnswer)
    (hid : vm.as_string "id" = Except.ok id_value)
    (htimeout : vm.as_string "timeout" = Except.ok timeout_value)
    (hstoi : stoi timeout_value.toList = Except.ok timeout)
    (hjson : vm.count "json" = 0)
    (hcodes : env.codes.BLK_SNAP_EVENT_LOW_FREE_SPACE ≠ env.codes.BLK_SNAP_EVENT_CORRUPTED ∧
      env.codes.BLK_SNAP_EVENT_LOW_FREE_SPACE ≠ env.codes.BLK_SNAP_EVENT_TERMINATE ∧
      env.codes.BLK_SNAP_EVENT_CORRUPTED ≠ env.codes.BLK_SNAP_EVENT_TERMINATE)
    (hanswer : env.ioctl_wait_event (parse_id_option env id_value)
      (timeout % 2 ^ 32).toNat = answer) :
    (SnapshotWaitEventArgsProc.Execute env vm).requests =
      [CliRequest.snapshot_wait_event (parse_id_option env id_value)
        (timeout % 2 ^ 32).toNat] ∧
    (answer.ret ≠ 0 → answer.errno = ENOENT →
      (SnapshotWaitEventArgsProc.Execute env vm).output = ["result=timeout"] ∧
      (SnapshotWaitEventArgsProc.Execute env vm).thrown = none) ∧
    (answer.ret ≠ 0 → answer.errno = EINTR →
      (SnapshotWaitEventArgsProc.Execute env vm).output = ["result=interrupted"] ∧
      (SnapshotWaitEventArgsProc.Execute env vm).thrown = none) ∧
    (answer.ret ≠ 0 → answer.errno ≠ ENOENT → answer.errno ≠ EINTR →
      (SnapshotWaitEventArgsProc.Execute env vm).output = [] ∧
      (SnapshotWaitEventArgsProc.Execute env vm).thrown =
        some (CliError.system_error answer.errno
          "[TBD]Failed to get event from snapshot.")) ∧
    (answer.ret = 0 →
      (SnapshotWaitEventArgsProc.Execute env vm).thrown = none ∧
      (answer.code = env.codes.BLK_SNAP_EVENT_LOW_FREE_SPACE →
        (SnapshotWaitEventArgsProc.Execute env vm).output =
          ["result=ok", "time=" ++ ostream_integer answer.time_label,
           "event=low_free_space",
           "requested_nr_sect=" ++ ostream_integer (load_u64 answer.data)]) ∧
      (answer.code = env.codes.BLK_SNAP_EVENT_CORRUPTED →
        (SnapshotWaitEventArgsProc.Execute env vm).output =
          ["result=ok", "time=" ++ ostream_integer answer.time_label,
           "event=corrupted"]) ∧
      (answer.code = env.codes.BLK_SNAP_EVENT_TERMINATE →
        (SnapshotWaitEventArgsProc.Execute env vm).output =
          ["result=ok", "time=" ++ ostream_integer answer.time_label,
           "event=terminate"]) ∧
      (answer.code ≠ env.codes.BLK_SNAP_EVENT_LOW_FREE_SPACE →
        answer.code ≠ env.codes.BLK_SNAP_EVENT_CORRUPTED →
        answer.code ≠ env.codes.BLK_SNAP_EVENT_TERMINATE →
        (SnapshotWaitEventArgsProc.Execute env vm).output =
          ["result=ok", "time=" ++ ostream_integer answer.time_label,
           "event=" ++ ostream_integer answer.code])) := by
  have h1 := VariablesMap.count_of_as_string vm "id" id_value hid
  have h2 := VariablesMap.count_of_as_string vm "timeout" timeout_value htimeout
  obtain ⟨hc1, hc2, hc3⟩ := hcodes
  have hrun : SnapshotWaitEventArgsProc.Execute env vm =
      if answer.ret ≠ 0 then
        if answer.errno = ENOENT then
          { requests := [CliRequest.snapshot_wait_event (parse_id_option env id_value)
              (timeout % 2 ^ 32).toNat], output := ["result=timeout"], thrown := none }
        else if answer.errno = EINTR then
          { requests := [CliRequest.snapshot_wait_event (parse_id_option env id_value)
              (timeout % 2 ^ 32).toNat], output := ["result=interrupted"], thrown := none }
        else
          { requests := [CliRequest.snapshot_wait_event (parse_id_option env id_value)
              (timeout % 2 ^ 32).toNat], output := [],
            thrown := some (CliError.system_error answer.errno
              "[TBD]Failed to get event from snapshot.") }
      else
        { requests := [CliRequest.snapshot_wait_event (parse_id_option env id_value)
              (timeout % 2 ^ 32).toNat],
          output := ["result=ok", "time=" ++ ostream_integer answer.time_label] ++
            event_lines env.codes answer.code answer.data,
          thrown := none } := by
    unfold SnapshotWaitEventArgsProc.Execute
    simp only [h1, h2, hid, htimeout, hjson, Except.bind, hstoi, hanswer]
    simp
  rw [hrun]
  have hENOENT : ENOENT ≠ EINTR := by decide
  refine ⟨?_, ?_, ?_, ?_, ?_⟩
  · split_ifs <;> rfl
  · intro hr he
    simp [hr, he]
  · intro hr he
    have hE : ¬ EINTR = ENOENT := fun h => hENOENT h.symm
    simp [hr, he, hE]
  · intro hr he he1
    simp [hr, he, he1]
  · intro hr
    refine ⟨by simp [hr], ?_, ?_, ?_, ?_⟩
    · intro hc
      simp [hr, event_lines, hc]
    · intro hc
      simp [hr, event_lines, hc, hc1.symm]
    · intro hc
      simp [hr, event_lines, hc, hc2.symm, hc3.symm]
    · intro ha hb hd
      simp [hr, event_lines, ha, hb, hd]

/-- Instance of C18: `snapshot_waitevent --id <uuid> --timeout 5000` on the sample
machine, where the request fails with `ENOENT`, prints "result=timeout" and
throws nothing. -/
theorem SnapshotWaitEventArgsProc_Execute_outcomes_witness :
    (SnapshotWaitEventArgsProc.Execute sample_cli_env sample_wait_vm).requests =
      [CliRequest.snapshot_wait_event 7 5000] ∧
    (SnapshotWaitEventArgsProc.Execute sample_cli_env sample_wait_vm).output =
      ["result=timeout"] ∧
    (SnapshotWaitEventArgsProc.Execute sample_cli_env sample_wait_vm).thrown = none :=
  have h := SnapshotWaitEventArgsProc_Execute_outcomes sample_cli_env sample_wait_vm
    sample_uuid "5000" 5000
    { ret := -1, errno := 2, time_label := 0, code := 0, data := [] }
    (by rfl) (by rfl) (by rfl) (by decide) (by decide) (by rfl)
  ⟨h.1, h.2.1 (by decide) (by rfl)⟩

/-! ## Identity of the pooled buffers -/

/-- Freeing a buffer hands out no address. -/
theorem diff_buffer_free_next_addr (m : Mem) (b : DiffBuffer) :
    (diff_buffer_free m (some b)).next_addr = m.next_addr := by
  rw [diff_buffer_free_spec]

/-- An allocation request never lowers the next address. -/
theorem Mem.alloc_next_addr (m : Mem) (g : GfpMask) :
    m.next_addr ≤ (m.alloc g).1.next_addr := by
  obtain ⟨o, na, mp, mb, fl, kl, nc⟩ := m
  cases o with
  | nil => simp [Mem.alloc]
  | cons x rest => cases x <;> simp [Mem.alloc]

/-- A successful allocation request returns the next address and moves past it. -/
theorem Mem.alloc_some (m m1 : Mem) (g : GfpMask) (a : Nat)
    (h : m.alloc g = (m1, some a)) : a = m.next_addr ∧ m.next_addr < m1.next_addr := by
  obtain ⟨o, na, mp, mb, fl, kl, nc⟩ := m
  cases o with
  | nil => simp [Mem.alloc] at h
  | cons x rest =>
    cases x with
    | false => simp [Mem.alloc] at h
    | true =>
      simp only [Mem.alloc, Prod.mk.injEq, Option.some.injEq] at h
      obtain ⟨h1, h2⟩ := h
      subst h1
      subst h2
      simp

/-- The page loop of `diff_buffer_new` never lowers the next address. -/
theorem alloc_pages_loop_next_addr (g : GfpMask) (n inx : Nat) (m : Mem) (b : DiffBuffer) :
    m.next_addr ≤ (alloc_pages_loop g n inx m b).1.next_addr := by
  induction n generalizing inx m b with
  | zero => simp [alloc_pages_loop]
  | succ n ih =>
    have ha := Mem.alloc_next_addr m g
    unfold alloc_pages_loop
    generalize m.alloc g = r at ha ⊢
    obtain ⟨m1, oa⟩ := r
    cases oa with
    | none =>
      simp only [diff_buffer_free_next_addr]
      exact ha
    | some page =>
      simp only
      refine le_trans ha ?_
      have h1 := ih (inx + 1)
        { m1 with memory_object_page := m1.memory_object_page + 1 }
        { b with pages := b.pages.set inx (some page) }
      exact h1

/-- A buffer returned by `diff_buffer_new` lies at the address that was next
before the call, and the next address afterwards is beyond it. -/
theorem diff_buffer_new_fresh (m m1 : Mem) (page_count buffer_size : Nat) (g : GfpMask)
    (b : DiffBuffer) (h : diff_buffer_new m page_count buffer_size g = (m1, some b)) :
    b.addr = m.next_addr ∧ m.next_addr < m1.next_addr := by
  unfold diff_buffer_new at h
  by_cases hp : page_count ≤ 0
  · simp [hp] at h
  · simp only [hp, if_false] at h
    generalize hr : Mem.alloc { m with diff_buffer_new_calls := m.diff_buffer_new_calls + 1 }
      g = r at h
    obtain ⟨m2, oa⟩ := r
    cases oa with
    | none => simp at h
    | some a =>
      simp only at h
      obtain ⟨ha1, ha2⟩ := Mem.alloc_some _ _ _ _ hr
      simp only at ha1 ha2
      have hb := alloc_pages_loop_some _ _ _ _ _ _ _ h
      have hn := alloc_pages_loop_next_addr g page_count 0
        { m2 with memory_object_diff_buffer := m2.memory_object_diff_buffer + 1 }
        { addr := a, size := buffer_size, page_count := page_count,
          pages := List.replicate (page_count + 1) none }
      rw [h] at hn
      simp only at hn hb
      exact ⟨by rw [hb.1, ha1], lt_of_lt_of_le ha2 hn⟩

/-- The function `diff_buffer_new` never lowers the next address. -/
theorem diff_buffer_new_next_addr (m : Mem) (page_count buffer_size : Nat) (g : GfpMask) :
    m.next_addr ≤ (diff_buffer_new m page_count buffer_size g).1.next_addr := by
  unfold diff_buffer_new
  by_cases hp : page_count ≤ 0
  · simp [hp]
  · simp only [hp, if_false]
    have ha := Mem.alloc_next_addr
      { m with diff_buffer_new_calls := m.diff_buffer_new_calls + 1 } g
    generalize Mem.alloc { m with diff_buffer_new_calls := m.diff_buffer_new_calls + 1 }
      g = r at ha ⊢
    obtain ⟨m2, oa⟩ := r
    cases oa with
    | none => exact ha
    | some a =>
      simp only at ha ⊢
      refine le_trans ha ?_
      have h1 := alloc_pages_loop_next_addr g page_count 0
        { m2 with memory_object_diff_buffer := m2.memory_object_diff_buffer + 1 }
        { addr := a, size := buffer_size, page_count := page_count,
          pages := List.replicate (page_count + 1) none }
      exact h1

/-- Freeing a list of buffers hands out no address. -/
theorem foldl_free_next_addr (l : List DiffBuffer) (m : Mem) :
    (l.foldl (fun m b => diff_buffer_free m (some b)) m).next_addr = m.next_addr := by
  induction l generalizing m with
  | nil => rfl
  | cons b rest ih => rw [List.foldl_cons, ih, diff_buffer_free_next_addr]

/-- The allocating part of `diff_buffer_take` never lowers the next address. -/
theorem diff_buffer_take_new_next_addr (s : State) (is_nowait : Bool)
    (page_count buffer_size : Nat) :
    s.mem.next_addr ≤
      (diff_buffer_take_new s is_nowait page_count buffer_size).1.mem.next_addr := by
  have h := diff_buffer_new_next_addr s.mem page_count buffer_size
    (if is_nowait then GfpMask.noio_nowait else GfpMask.noio_only)
  unfold diff_buffer_take_new
  generalize diff_buffer_new s.mem page_count buffer_size
    (if is_nowait then GfpMask.noio_nowait else GfpMask.noio_only) = r at h ⊢
  obtain ⟨m, ob⟩ := r
  cases ob <;> exact h

/-- A take from a pool that is not empty moves the head of the free list to the
caller and leaves the allocator alone. -/
theorem diff_buffer_take_of_cons (P : Params) (s : State) (is_nowait : Bool)
    (b : DiffBuffer) (rest : List DiffBuffer) (hl : s.area.free_diff_buffers = b :: rest) :
    (diff_buffer_take P s is_nowait).1.area.free_diff_buffers = rest ∧
    (diff_buffer_take P s is_nowait).1.mem = s.mem ∧
    (diff_buffer_take P s is_nowait).2 = Except.ok b := by
  unfold diff_buffer_take
  rw [hl]
  exact ⟨rfl, rfl, rfl⟩

/-- While callers release only buffers they hold, the pooled buffers and the
buffers held by callers have pairwise different addresses, all of them below the
next address of the allocator. -/
theorem reachable_held_invariant (P : Params) (s : State) (held : List DiffBuffer)
    (h : ReachableHeld P s held) :
    ((s.area.free_diff_buffers ++ held).map DiffBuffer.addr).Nodup ∧
    ∀ b ∈ s.area.free_diff_buffers ++ held, b.addr < s.mem.next_addr := by
  induction h with
  | init cs m => simp
  | take s held nw _ ih =>
    obtain ⟨ih1, ih2⟩ := ih
    cases hl : s.area.free_diff_buffers with
    | nil =>
      rw [hl] at ih1 ih2
      rw [diff_buffer_take_of_nil P s nw hl]
      generalize take_page_count P s.area = pc
      generalize take_buffer_size s.area = bs
      have harea := diff_buffer_take_new_area s nw pc bs
      have hmono := diff_buffer_take_new_next_addr s nw pc bs
      cases hres : diff_buffer_take_new s nw pc bs with
      | mk s1 r =>
        rw [hres] at harea hmono
        simp only at harea hmono
        cases r with
        | error e =>
          simp only [held_after_take, harea, hl]
          exact ⟨ih1, fun b hb => lt_of_lt_of_le (ih2 b hb) hmono⟩
        | ok b0 =>
          obtain ⟨hb1, hb2⟩ := diff_buffer_new_fresh _ _ _ _ _ _
            (diff_buffer_take_new_ok s s1 nw pc bs b0 hres)
          simp only [held_after_take, harea, hl, List.nil_append, List.map_cons,
            List.nodup_cons, List.mem_map, not_exists, not_and, List.mem_cons,
            forall_eq_or_imp] at ih1 ih2 ⊢
          refine ⟨⟨?_, ih1⟩, ?_, ?_⟩
          · intro x hx hxa
            have := ih2 x hx
            omega
          · omega
          · intro x hx
            have := ih2 x hx
            omega
    | cons b rest =>
      obtain ⟨h1, h2, h3⟩ := diff_buffer_take_of_cons P s nw b rest hl
      rw [hl] at ih1 ih2
      rw [h1, h2, h3]
      simp only [held_after_take]
      have hperm : List.Perm (rest ++ b :: held) (b :: rest ++ held) := by
        simp
      refine ⟨(List.Perm.nodup_iff (hperm.map DiffBuffer.addr)).2 ih1, ?_⟩
      intro x hx
      exact ih2 x (hperm.subset hx)
  | release s held b _ hb ih =>
    obtain ⟨ih1, ih2⟩ := ih
    unfold diff_buffer_release
    split
    · simp only [diff_buffer_free_next_addr]
      have hsub : List.Sublist (s.area.free_diff_buffers ++ held.erase b)
          (s.area.free_diff_buffers ++ held) :=
        List.Sublist.append_left (List.erase_sublist b held) _
      exact ⟨List.Nodup.sublist (hsub.map DiffBuffer.addr) ih1,
        fun x hx => ih2 x (hsub.subset hx)⟩
    · simp only
      have hperm : List.Perm (s.area.free_diff_buffers ++ [b] ++ held.erase b)
          (s.area.free_diff_buffers ++ held) := by
        rw [List.append_assoc]
        exact List.Perm.append_left _ (List.perm_cons_erase hb).symm
      exact ⟨(List.Perm.nodup_iff (hperm.map DiffBuffer.addr)).2 ih1,
        fun x hx => ih2 x (hperm.subset hx)⟩
  | cleanup s s1 held fuel _ hc ih =>
    obtain ⟨ih1, ih2⟩ := ih
    rw [diff_buffer_cleanup_some fuel s s1 hc]
    simp only [drained, List.nil_append, foldl_free_next_addr]
    have hsub : List.Sublist held (s.area.free_diff_buffers ++ held) :=
      List.sublist_append_right _ _
    exact ⟨List.Nodup.sublist (hsub.map DiffBuffer.addr) ih1,
      fun x hx => ih2 x (hsub.subset hx)⟩

/-- A run in which callers release only buffers they hold is a run. -/
theorem ReachableHeld.reachable (P : Params) (s : State) (held : List DiffBuffer)
    (h : ReachableHeld P s held) : Reachable P s := by
  induction h with
  | init cs m => exact Reachable.init cs m
  | take s held nw _ ih => exact Reachable.take s nw ih
  | release s held b _ _ ih => exact Reachable.release s b ih
  | cleanup s s1 held fuel _ hc ih => exact Reachable.cleanup s s1 fuel ih hc

/-- The sample run keeps to the rule: from the empty pool, two takes that allocate
and then the release of both buffers, after which no buffer is held. -/
theorem sample_pooled_reachable_held :
    ReachableHeld sample_params sample_pooled_state [] := by
  have r0 : ReachableHeld sample_params (sample_state [] 0 [true, true, true, true]) [] :=
    ReachableHeld.init 8 _
  have e1 : diff_buffer_take sample_params
      (sample_state [] 0 [true, true, true, true]) false =
      ({ area := { chunk_sectors := 8, free_diff_buffers := [],
                   free_diff_buffers_count := 0 },
         mem := { sample_mem [true, true] with
           next_addr := 102, memory_object_page := 1, memory_object_diff_buffer := 1,
           diff_buffer_new_calls := 1 } }, Except.ok (sample_buffer 100 101)) := by rfl
  have r1 := ReachableHeld.take _ _ false r0
  rw [e1] at r1
  have e2 : diff_buffer_take sample_params
      { area := { chunk_sectors := 8, free_diff_buffers := [],
                  free_diff_buffers_count := 0 },
        mem := { sample_mem [true, true] with
          next_addr := 102, memory_object_page := 1, memory_object_diff_buffer := 1,
          diff_buffer_new_calls := 1 } } false =
      ({ area := { chunk_sectors := 8, free_diff_buffers := [],
                   free_diff_buffers_count := 0 },
         mem := { sample_mem [] with
           next_addr := 104, memory_object_page := 2, memory_object_diff_buffer := 2,
           diff_buffer_new_calls := 2 } }, Except.ok (sample_buffer 102 103)) := by rfl
  have r2 := ReachableHeld.take _ _ false r1
  rw [e2] at r2
  have r3 := ReachableHeld.release _ _ (sample_buffer 100 101) r2 (by decide)
  have r4 := ReachableHeld.release _ _ (sample_buffer 102 103) r3 (by decide)
  have e4 : diff_buffer_release sample_params (diff_buffer_release sample_params
      { area := { chunk_sectors := 8, free_diff_buffers := [],
                  free_diff_buffers_count := 0 },
        mem := { sample_mem [] with
          next_addr := 104, memory_object_page := 2, memory_object_diff_buffer := 2,
          diff_buffer_new_calls := 2 } } (sample_buffer 100 101)) (sample_buffer 102 103) =
      sample_pooled_state := by decide
  rw [e4] at r4
  exact r4

/-- C20: in every state reachable from an empty pool with count 0 by calls of
`diff_buffer_take`, `diff_buffer_release` and `diff_buffer_cleanup`,
`free_diff_buffers_count` is the number of buffers in `free_diff_buffers`; and
when the state is reached by a run in which callers release only buffers they
obtained from take and have not released since, no buffer is in the list twice:
the addresses of the pooled buffers are pairwise different. -/
theorem pool_count_and_no_duplicates (P : Params) (s : State) (hr : Reachable P s) :
    s.area.free_diff_buffers_count = s.area.free_diff_buffers.length ∧
    ∀ held : List DiffBuffer, ReachableHeld P s held →
      (s.area.free_diff_buffers.map DiffBuffer.addr).Nodup ∧
      s.area.free_diff_buffers.Nodup := by
  refine ⟨reachable_count_eq_length P s hr, ?_⟩
  intro held hh
  have h := (reachable_held_invariant P s held hh).1
  rw [List.map_append] at h
  have h1 := (List.nodup_append.1 h).1
  exact ⟨h1, List.Nodup.of_map _ h1⟩

/-- Instance of C20: the pool reached by the sample run has count 2, two pooled
buffers, and their addresses 100 and 102 differ. -/
theorem pool_count_and_no_duplicates_witness :
    sample_pooled_state.area.free_diff_buffers_count =
      sample_pooled_state.area.free_diff_buffers.length ∧
    (sample_pooled_state.area.free_diff_buffers.map DiffBuffer.addr).Nodup ∧
    sample_pooled_state.area.free_diff_buffers.map DiffBuffer.addr = [100, 102] ∧
    sample_pooled_state.area.free_diff_buffers_count = 2 :=
  have h := pool_count_and_no_duplicates sample_params sample_pooled_state
    sample_pooled_reachable
  ⟨h.1, (h.2 [] sample_pooled_reachable_held).1, by decide, by decide⟩

/-! ## Allocation and unwinding in `diff_buffer_new` -/

/-- The page loop of `diff_buffer_new` while `alloc_page` succeeds: after `k`
successes the loop stands at slot `inx + k`, the pages handed out are the next `k`
addresses, stored in slot order, and the page counter went up by `k`. -/
theorem alloc_pages_loop_progress (g : GfpMask) (k n : Nat) (m : Mem) (b : DiffBuffer)
    (pre : List (Option Nat)) (slots : Nat) (tail : List Bool)
    (horacle : m.oracle = List.replicate k true ++ tail)
    (hpages : b.pages = pre ++ List.replicate slots none) (hk : k ≤ slots) :
    alloc_pages_loop g (k + n) pre.length m b =
      alloc_pages_loop g n (pre.length + k)
        { m with oracle := tail, next_addr := m.next_addr + k,
                 memory_object_page := m.memory_object_page + k }
        { b with pages := pre ++ (List.range' m.next_addr k).map some ++
                   List.replicate (slots - k) none } := by
  induction k generalizing m b pre slots with
  | zero =>
    obtain ⟨o, na, mp, mb, fl, kl, nc⟩ := m
    obtain ⟨ba, bs, bp, bpages⟩ := b
    simp only at horacle hpages
    subst horacle
    subst hpages
    simp
  | succ k ih =>
    obtain ⟨o, na, mp, mb, fl, kl, nc⟩ := m
    obtain ⟨ba, bs, bp, bpages⟩ := b
    simp only at horacle hpages
    subst horacle
    subst hpages
    obtain ⟨slots1, rfl⟩ : ∃ s1, slots = s1 + 1 := ⟨slots - 1, by omega⟩
    have hk1 : k ≤ slots1 := by omega
    have hn : k + 1 + n = (k + n) + 1 := by omega
    rw [hn]
    simp only [alloc_pages_loop, Mem.alloc, List.replicate_succ, List.cons_append]
    have hset : (pre ++ none :: List.replicate slots1 (none : Option Nat)).set pre.length
        (some na) = (pre ++ [some na]) ++ List.replicate slots1 none := by
      simp
    rw [hset]
    have hlen : pre.length + 1 = (pre ++ [some na]).length := by simp
    rw [hlen]
    rw [ih _ _ (pre ++ [some na]) slots1 rfl rfl hk1]
    have e1 : (pre ++ [some na]).length + k = pre.length + (k + 1) := by
      simp only [List.length_append, List.length_singleton]
      omega
    have e2 : na + 1 + k = na + (k + 1) := by omega
    have e3 : mp + 1 + (k : Int) = mp + ((k + 1 : Nat) : Int) := by
      push_cast
      omega
    have e4 : slots1 + 1 - (k + 1) = slots1 - k := by omega
    have e5 : pre ++ [some na] ++ List.map some (List.range' (na + 1) k) =
        pre ++ List.map some (List.range' na (k + 1)) := by
      simp [List.range'_succ]
    rw [e1, e2, e3, e4, e5]

/-- A request that the oracle does not grant fails and uses up one entry. -/
theorem Mem.alloc_refused (m : Mem) (g : GfpMask) (h : m.oracle.head? ≠ some true) :
    m.alloc g = ({ m with oracle := m.oracle.tail }, none) := by
  obtain ⟨o, na, mp, mb, fl, kl, nc⟩ := m
  cases o with
  | nil => simp [Mem.alloc]
  | cons x rest =>
    cases x with
    | false => simp [Mem.alloc]
    | true => simp at h

/-- Live pages of a buffer whose first `k` slots are filled and whose other slots
are `NULL`. -/
theorem live_pages_filled (addr size page_count k slots : Nat) (pages : List Nat)
    (hlen : pages.length = k) (hk : k ≤ page_count) :
    DiffBuffer.live_pages
      { addr := addr, size := size, page_count := page_count,
        pages := pages.map some ++ List.replicate slots none } = pages := by
  unfold DiffBuffer.live_pages
  simp only
  rw [List.take_append_eq_append_take, List.reduceOption_append]
  have h1 : List.take page_count (pages.map some) = pages.map some := by
    apply List.take_of_length_le
    simp only [List.length_map]
    omega
  have h2 : ∀ j : Nat, (List.replicate j (none : Option Nat)).reduceOption = [] := by
    intro j
    induction j with
    | zero => rfl
    | succ j ih => rw [List.replicate_succ, List.reduceOption_cons_of_none, ih]
  have h3 : ∀ l : List Nat, (l.map some).reduceOption = l := by
    intro l
    induction l with
    | nil => rfl
    | cons p ps ih => rw [List.map_cons, List.reduceOption_cons_of_some, ih]
  rw [h1, List.take_replicate, h2, List.append_nil, h3]

/-- The function `diff_buffer_new` when the descriptor and all `page_count` pages
are granted. -/
theorem diff_buffer_new_all_granted (m : Mem) (page_count buffer_size : Nat) (g : GfpMask)
    (rest : List Bool) (hpc : 1 ≤ page_count)
    (horacle : m.oracle = true :: (List.replicate page_count true ++ rest)) :
    diff_buffer_new m page_count buffer_size g =
      ({ m with oracle := rest, next_addr := m.next_addr + 1 + page_count,
                memory_object_page := m.memory_object_page + page_count,
                memory_object_diff_buffer := m.memory_object_diff_buffer + 1,
                diff_buffer_new_calls := m.diff_buffer_new_calls + 1 },
        some { addr := m.next_addr, size := buffer_size, page_count := page_count,
               pages := (List.range' (m.next_addr + 1) page_count).map some ++ [none] }) := by
  obtain ⟨o, na, mp, mb, fl, kl, nc⟩ := m
  simp only at horacle
  subst horacle
  have hp : ¬ page_count ≤ 0 := by omega
  unfold diff_buffer_new
  simp only [hp, if_false, Mem.alloc]
  have h := alloc_pages_loop_progress g page_count 0
    { oracle := List.replicate page_count true ++ rest, next_addr := na + 1,
      memory_object_page := mp, memory_object_diff_buffer := mb + 1,
      free_page_log := fl, kfree_log := kl, diff_buffer_new_calls := nc + 1 }
    { addr := na, size := buffer_size, page_count := page_count,
      pages := List.replicate (page_count + 1) none }
    [] (page_count + 1) rest rfl rfl (by omega)
  simp only [Nat.add_zero, List.length_nil, Nat.zero_add, List.nil_append,
    Nat.add_sub_cancel_left] at h
  rw [h]
  simp [alloc_pages_loop]

/-- The function `diff_buffer_new` when the descriptor and the first `k` pages are
granted and the next page is refused. -/
theorem diff_buffer_new_page_refused (m : Mem) (page_count buffer_size : Nat) (g : GfpMask)
    (k : Nat) (tail : List Bool) (hk : k < page_count)
    (horacle : m.oracle = true :: (List.replicate k true ++ tail))
    (htail : tail.head? ≠ some true) :
    diff_buffer_new m page_count buffer_size g =
      ({ m with oracle := tail.tail, next_addr := m.next_addr + 1 + k,
                free_page_log := m.free_page_log ++ List.range' (m.next_addr + 1) k,
                kfree_log := m.kfree_log ++ [m.next_addr],
                diff_buffer_new_calls := m.diff_buffer_new_calls + 1 },
        none) := by
  obtain ⟨o, na, mp, mb, fl, kl, nc⟩ := m
  simp only at horacle
  subst horacle
  have hp : ¬ page_count ≤ 0 := by omega
  obtain ⟨n, rfl⟩ : ∃ n, page_count = k + (n + 1) := ⟨page_count - k - 1, by omega⟩
  unfold diff_buffer_new
  simp only [hp, if_false, Mem.alloc]
  have h := alloc_pages_loop_progress g k (n + 1)
    { oracle := List.replicate k true ++ tail, next_addr := na + 1,
      memory_object_page := mp, memory_object_diff_buffer := mb + 1,
      free_page_log := fl, kfree_log := kl, diff_buffer_new_calls := nc + 1 }
    { addr := na, size := buffer_size, page_count := k + (n + 1),
      pages := List.replicate (k + (n + 1) + 1) none }
    [] (k + (n + 1) + 1) tail rfl rfl (by omega)
  simp only [List.length_nil, Nat.zero_add, List.nil_append] at h
  rw [h]
  unfold alloc_pages_loop
  rw [Mem.alloc_refused _ g htail]
  simp only
  rw [diff_buffer_free_spec, live_pages_filled _ _ _ k _ _ (by simp) (by omega)]
  simp only [List.length_range', Prod.mk.injEq, Mem.mk.injEq, and_true, true_and]
  omega

/-- C21: for `page_count ≥ 1` and `k < page_count`, when the descriptor and the
first `k` pages are granted and the next page is refused, `diff_buffer_new`
returns `NULL` after freeing exactly the `k` pages it allocated and then the
descriptor, with the page counter and the buffer counter back at their values
before the call; when the descriptor and all `page_count` pages are granted it
returns a buffer whose first `page_count` slots hold the allocated pages, none of
them `NULL`, with the page counter raised by `page_count`, the buffer counter
raised by one and nothing freed; for `page_count = 0` it returns `NULL` without
an allocation request. -/
theorem diff_buffer_new_outcomes (m : Mem) (page_count buffer_size : Nat) (g : GfpMask) :
    (∀ (k : Nat) (tail : List Bool), 1 ≤ page_count → k < page_count →
      m.oracle = true :: (List.replicate k true ++ tail) → tail.head? ≠ some true →
      (diff_buffer_new m page_count buffer_size g).2 = none ∧
      (diff_buffer_new m page_count buffer_size g).1.free_page_log =
        m.free_page_log ++ List.range' (m.next_addr + 1) k ∧
      (diff_buffer_new m page_count buffer_size g).1.kfree_log =
        m.kfree_log ++ [m.next_addr] ∧
      (diff_buffer_new m page_count buffer_size g).1.memory_object_page =
        m.memory_object_page ∧
      (diff_buffer_new m page_count buffer_size g).1.memory_object_diff_buffer =
        m.memory_object_diff_buffer) ∧
    (∀ rest : List Bool, 1 ≤ page_count →
      m.oracle = true :: (List.replicate page_count true ++ rest) →
      ∃ b : DiffBuffer,
        (diff_buffer_new m page_count buffer_size g).2 = some b ∧
        b.addr = m.next_addr ∧ b.size = buffer_size ∧ b.page_count = page_count ∧
        b.pages.take page_count =
          (List.range' (m.next_addr + 1) page_count).map some ∧
        (∀ slot ∈ b.pages.take page_count, slot ≠ none) ∧
        b.live_pages.length = page_count ∧
        (diff_buffer_new m page_count buffer_size g).1.memory_object_page =
          m.memory_object_page + page_count ∧
        (diff_buffer_new m page_count buffer_size g).1.memory_object_diff_buffer =
          m.memory_object_diff_buffer + 1 ∧
        (diff_buffer_new m page_count buffer_size g).1.free_page_log = m.free_page_log ∧
        (diff_buffer_new m page_count buffer_size g).1.kfree_log = m.kfree_log) ∧
    (page_count = 0 →
      (diff_buffer_new m page_count buffer_size g).2 = none ∧
      (diff_buffer_new m page_count buffer_size g).1.oracle = m.oracle ∧
      (diff_buffer_new m page_count buffer_size g).1.next_addr = m.next_addr ∧
      (diff_buffer_new m page_count buffer_size g).1.memory_object_page =
        m.memory_object_page ∧
      (diff_buffer_new m page_count buffer_size g).1.memory_object_diff_buffer =
        m.memory_object_diff_buffer ∧
      (diff_buffer_new m page_count buffer_size g).1.free_page_log = m.free_page_log ∧
      (diff_buffer_new m page_count buffer_size g).1.kfree_log = m.kfree_log) := by
  refine ⟨?_, ?_, ?_⟩
  · intro k tail _ hk horacle htail
    rw [diff_buffer_new_page_refused m page_count buffer_size g k tail hk horacle htail]
    exact ⟨rfl, rfl, rfl, rfl, rfl⟩
  · intro rest hpc horacle
    rw [diff_buffer_new_all_granted m page_count buffer_size g rest hpc horacle]
    have htake : List.take page_count
        ((List.range' (m.next_addr + 1) page_count).map some ++ [none]) =
        (List.range' (m.next_addr + 1) page_count).map some := by
      rw [List.take_append_eq_append_take, List.take_of_length_le (by simp)]
      simp
    refine ⟨_, rfl, rfl, rfl, rfl, htake, ?_, ?_, rfl, rfl, rfl, rfl⟩
    · intro slot hslot
      simp only at hslot
      rw [htake] at hslot
      obtain ⟨p, _, hp⟩ := List.mem_map.1 hslot
      rw [← hp]
      exact Option.some_ne_none p
    · have hl := live_pages_filled m.next_addr buffer_size page_count page_count 1
        (List.range' (m.next_addr + 1) page_count) (by simp) (Nat.le_refl _)
      rw [show List.replicate 1 (none : Option Nat) = [none] from rfl] at hl
      rw [hl]
      simp
  · intro h0
    subst h0
    simp [diff_buffer_new]

/-- Instance of C21: three pages asked for at next address 100. When the third
page is refused, `NULL` is returned, the pages 101 and 102 and the descriptor 100
are freed and both counters are back at 0; when all are granted the buffer holds
the pages 101, 102 and 103 and the counters stand at 3 and 1. -/
theorem diff_buffer_new_outcomes_witness :
    ((diff_buffer_new (sample_mem [true, true, true, false]) 3 12288
        GfpMask.noio_only).2 = none ∧
      (diff_buffer_new (sample_mem [true, true, true, false]) 3 12288
        GfpMask.noio_only).1.free_page_log = [101, 102] ∧
      (diff_buffer_new (sample_mem [true, true, true, false]) 3 12288
        GfpMask.noio_only).1.kfree_log = [100] ∧
      (diff_buffer_new (sample_mem [true, true, true, false]) 3 12288
        GfpMask.noio_only).1.memory_object_page = 0 ∧
      (diff_buffer_new (sample_mem [true, true, true, false]) 3 12288
        GfpMask.noio_only).1.memory_object_diff_buffer = 0) ∧
    (diff_buffer_new (sample_mem [true, true, true, true]) 3 12288 GfpMask.noio_only).2 =
      some { addr := 100, size := 12288, page_count := 3,
             pages := [some 101, some 102, some 103, none] } ∧
    (diff_buffer_new (sample_mem [true, true, true, true]) 3 12288
      GfpMask.noio_only).1.memory_object_page = 3 ∧
    (diff_buffer_new (sample_mem [true, true, true, true]) 3 12288
      GfpMask.noio_only).1.memory_object_diff_buffer = 1 :=
  ⟨(diff_buffer_new_outcomes (sample_mem [true, true, true, false]) 3 12288
      GfpMask.noio_only).1 2 [false] (by decide) (by decide) rfl (by decide),
    by decide, by decide, by decide⟩

/-! ## Properties of the device ids -/

/-- C22: `SDeviceId::operator <` is the strict lexicographic order on `(mj, mn)`:
it holds exactly when `mj` is smaller, or `mj` is equal and `mn` is smaller; it
is irreflexive and transitive; of `a < b`, `a == b` and `b < a` exactly one
holds; `operator ==` holds exactly when both fields are equal, and
`operator !=` is its negation. -/
theorem SDeviceId_operator_lt_strict_lexicographic (a b c : SDeviceId) :
    (a.operator_lt b = true ↔ a.mj < b.mj ∨ (a.mj = b.mj ∧ a.mn < b.mn)) ∧
    (a.operator_lt b = true ↔ toLex (a.mj, a.mn) < toLex (b.mj, b.mn)) ∧
    a.operator_lt a = false ∧
    (a.operator_lt b = true → b.operator_lt c = true → a.operator_lt c = true) ∧
    ((a.operator_lt b = true ∧ a.operator_eq b = false ∧ b.operator_lt a = false) ∨
      (a.operator_lt b = false ∧ a.operator_eq b = true ∧ b.operator_lt a = false) ∨
      (a.operator_lt b = false ∧ a.operator_eq b = false ∧ b.operator_lt a = true)) ∧
    (a.operator_eq b = true ↔ a.mj = b.mj ∧ a.mn = b.mn) ∧
    (a.operator_eq b = true ↔ a = b) ∧
    a.operator_ne b = !a.operator_eq b := by
  obtain ⟨a1, a2⟩ := a
  obtain ⟨b1, b2⟩ := b
  obtain ⟨c1, c2⟩ := c
  have hlt : ∀ x1 x2 y1 y2 : Nat,
      (SDeviceId.operator_lt ⟨x1, x2⟩ ⟨y1, y2⟩ = true ↔ x1 < y1 ∨ (x1 = y1 ∧ x2 < y2)) := by
    intro x1 x2 y1 y2
    unfold SDeviceId.operator_lt
    simp only
    split_ifs <;> simp <;> omega
  have hltf : ∀ x1 x2 y1 y2 : Nat,
      (SDeviceId.operator_lt ⟨x1, x2⟩ ⟨y1, y2⟩ = false ↔
        ¬ (x1 < y1 ∨ (x1 = y1 ∧ x2 < y2))) := by
    intro x1 x2 y1 y2
    rw [← hlt x1 x2 y1 y2]
    simp
  have heq : ∀ x1 x2 y1 y2 : Nat,
      (SDeviceId.operator_eq ⟨x1, x2⟩ ⟨y1, y2⟩ = true ↔ x1 = y1 ∧ x2 = y2) := by
    intro x1 x2 y1 y2
    simp [SDeviceId.operator_eq]
  have heqf : ∀ x1 x2 y1 y2 : Nat,
      (SDeviceId.operator_eq ⟨x1, x2⟩ ⟨y1, y2⟩ = false ↔ ¬ (x1 = y1 ∧ x2 = y2)) := by
    intro x1 x2 y1 y2
    rw [← heq x1 x2 y1 y2]
    simp
  refine ⟨hlt _ _ _ _, ?_, ?_, ?_, ?_, heq _ _ _ _, ?_, rfl⟩
  · rw [hlt, Prod.Lex.lt_iff]
  · rw [hltf]
    omega
  · rw [hlt, hlt, hlt]
    omega
  · rw [hlt, hlt, hltf, hltf, heq, heqf]
    omega
  · rw [heq]
    simp

/-- Instance of C22: the ids 8:0, 8:16 and 259:0 are in ascending order, and the
first is below the third. -/
theorem SDeviceId_operator_lt_strict_lexicographic_witness :
    SDeviceId.operator_lt { mj := 8, mn := 0 } { mj := 8, mn := 16 } = true ∧
    SDeviceId.operator_lt { mj := 8, mn := 16 } { mj := 259, mn := 0 } = true ∧
    SDeviceId.operator_lt { mj := 8, mn := 0 } { mj := 259, mn := 0 } = true :=
  ⟨by decide, by decide,
    (SDeviceId_operator_lt_strict_lexicographic { mj := 8, mn := 0 } { mj := 8, mn := 16 }
      { mj := 259, mn := 0 }).2.2.2.1 (by decide) (by decide)⟩

end Blksnap
